import Mathlib

/-!
Shallow embedding of `src/lifegen.py` (chashagin/ecosim), an agent-based
2D ecosystem simulator.  Python floats are modelled as rationals (`ℚ`),
Python ints as `ℤ`/`ℕ`, grid coordinates as `ℤ` (Python list indices are
only ever used after an explicit `0 ≤ r < rows` bounds filter).  All
randomness in the program flows through the single `random` module
generator; it is modelled as an abstract deterministic stream `Rng`
(a function `Nat → ℚ` plus a cursor) consumed in program order, with
`random.random()` yielding the fractional part of the next stream value
(so draws lie in `[0,1)` as the Python contract guarantees).
`random.shuffle` is Python standard library code, external to the
repository; it is modelled abstractly as a stream-determined rotation,
which is a permutation of the input, as the library guarantees.
`math.sin(pi * cycle / 180)` is likewise external and transcendental; it
is abstracted as a parameter `sinq : Nat → ℚ` of the tick pipeline.
Rendering (`pygame`) and printing are out of scope and have no effect on
simulation state.
-/

namespace Ecosim

/-- Terrain types `'water' | 'land' | 'vegetation' | 'sand'` of `lifegen.py`. -/
inductive TerrainType
  | water
  | land
  | vegetation
  | sand
deriving DecidableEq, Repr

/-- Animal sex `'M' | 'F'`. -/
inductive Sex
  | M
  | F
deriving DecidableEq, Repr

/-- Species tag `'Herbivore' | 'Predator'`. -/
inductive Species
  | Herbivore
  | Predator
deriving DecidableEq, Repr

/-- Causes of death; the source uses the strings "Old Age", "Starvation",
"Dehydration", "Hyperthermia", "Exhaustion", "Predation". -/
inductive DeathCause
  | oldAge
  | starvation
  | dehydration
  | hyperthermia
  | exhaustion
  | predation
deriving DecidableEq, Repr

/-- `Terrain.__init__(terrain_type, elevation, water_volume=0)`; the
`metadata` dict is modelled by its two keys ever written, `feces` and
`urine`. -/
structure Terrain where
  terrain_type : TerrainType
  elevation : ℚ
  water_volume : ℚ := 0
  feces : Bool := false
  urine : Bool := false
deriving DecidableEq, Repr

/-- The abstract seeded random generator: a value stream and a cursor.
Equal `Rng`s denote runs whose generator was seeded identically. -/
structure Rng where
  f : Nat → ℚ
  i : Nat

/-- `random.random()`: next draw, in `[0,1)` (fractional part of the
abstract stream value). -/
def Rng.next (r : Rng) : ℚ × Rng :=
  (Int.fract (r.f r.i), ⟨r.f, r.i + 1⟩)

/-- `random.uniform(a, b)`. -/
def Rng.uniform (r : Rng) (a b : ℚ) : ℚ × Rng :=
  let (x, r') := r.next
  (a + (b - a) * x, r')

/-- `random.randint(a, b)` (inclusive bounds). -/
def Rng.randint (r : Rng) (a b : ℤ) : ℤ × Rng :=
  let (x, r') := r.next
  (a + ⌊x * ((b : ℚ) - a + 1)⌋, r')

/-- An index below `n` drawn from the stream (used for `random.choice`
and the shuffle model); returns `0` when `n = 0`. -/
def Rng.below (r : Rng) (n : Nat) : Nat × Rng :=
  let (x, r') := r.next
  ((⌊x * (n : ℚ)⌋).toNat % n, r')

/-- `random.choice(l)` (the source only calls it on nonempty lists;
`d` is a formal default). -/
def Rng.choice (r : Rng) (l : List α) (d : α) : α × Rng :=
  let (k, r') := r.below l.length
  (l.getD k d, r')

/-- `random.shuffle(l)`: external stdlib, modelled as a
stream-determined rotation (a permutation of `l`). -/
def Rng.shuffle (r : Rng) (l : List α) : List α × Rng :=
  let (k, r') := r.below l.length
  (l.rotate k, r')

/-- The grid `self.grid`, as a total function; the program only reads
cells after a `0 ≤ r < rows ∧ 0 ≤ c < cols` filter. -/
def Grid := ℤ → ℤ → Terrain

/-- Functional update of one grid cell (`self.grid[r][c] = t`). -/
def setCell (g : Grid) (r c : ℤ) (t : Terrain) : Grid :=
  fun r' c' => if r' = r ∧ c' = c then t else g r' c'

theorem setCell_same (g : Grid) (r c : ℤ) (t : Terrain) :
    setCell g r c t r c = t := by simp [setCell]

theorem setCell_other (g : Grid) (r c r' c' : ℤ) (t : Terrain)
    (h : ¬(r' = r ∧ c' = c)) : setCell g r c t r' c' = g r' c' := by
  simp [setCell, h]

/-- The full per-animal state (union of the attributes assigned in
`Animal.__init__` / `_initialize_basic_attributes` /
`_initialize_biological_attributes` plus the `Herbivore` and `Predator`
extras; `migratory_pattern` is the index drawn from
`['None', 'Seasonal', 'Nomadic']`, `aggressive`/`curious`/`social` are
the `behavioral_traits` values). -/
structure Animal where
  id : Nat
  row : ℤ
  col : ℤ
  speed : ℚ
  sex : Sex
  color : ℤ × ℤ × ℤ
  species : Species
  hunger : ℚ := 0
  thirst : ℚ := 0
  energy : ℚ := 100
  age : ℤ := 0
  is_adult : Bool := false
  is_dead : Bool := false
  cause_of_death : Option DeathCause := none
  decay : ℤ := 100
  max_age : ℤ := 50
  body_temperature : ℚ := 37
  strength : ℚ := 1
  agility : ℚ := 1
  wisdom : ℚ := 1
  intelligence : ℚ := 1
  fertility : ℚ := 1
  immune_system : ℚ := 1
  sensory_perception : ℚ := 1
  gestation_period : ℤ := 0
  reproduction_cooldown : ℤ := 0
  is_pregnant : Bool := false
  offspring_count : ℤ := 0
  social_hierarchy_rank : ℤ := 1
  territory_size : ℚ := 1
  migratory_pattern : Nat := 0
  aggressive : ℚ := 0
  curious : ℚ := 0
  social : ℚ := 0
  colon : ℚ := 0
  bladder : ℚ := 0
  random_move_probability : ℚ := 1/5
  nutrition : ℚ := 40
  born : Bool := true
  hunting_success_rate : ℚ := 0
  hunger_decrease_on_feed : ℚ := 0
  reproduction_count : ℤ := 0

instance : Inhabited Animal :=
  ⟨{ id := 0, row := 0, col := 0, speed := 1, sex := Sex.M,
     color := (0, 0, 0), species := Species.Herbivore }⟩

/-- `Plant.__init__`. -/
structure Plant where
  nutrition : ℚ := 30
  is_dead : Bool := false
  ambient_temperature : ℚ := 20
deriving DecidableEq, Repr

/-- `Plant.handle_vital_stats`. -/
def Plant.handle_vital_stats (p : Plant) : Plant :=
  if p.ambient_temperature ≥ 35 then { p with is_dead := true } else p

/-- `Season`: temperature modifier, food growth rate, predator
efficiency (names dropped; the four seasons are a fixed list). -/
structure Season where
  temperature_modifier : ℚ
  food_growth_rate : ℚ
  predator_efficiency : ℚ
deriving DecidableEq, Repr

/-- The fixed season list built in `_initialize_environment_attributes`:
Spring(5, 1.2, 1.0), Summer(10, 1.0, 1.2), Autumn(0, 0.8, 1.0),
Winter(-5, 0.5, 1.1). -/
def seasons : List Season :=
  [⟨5, 12/10, 1⟩, ⟨10, 1, 12/10⟩, ⟨0, 8/10, 1⟩, ⟨-5, 1/2, 11/10⟩]

namespace Animal

/-- `Animal.undergo_decay`. -/
def undergo_decay (a : Animal) : Animal :=
  if a.is_dead then { a with decay := max (a.decay - 5) 0 } else a

/-- `Animal._increase_colon_fill`. -/
def increase_colon_fill (a : Animal) : Animal :=
  { a with colon := min (a.colon + 20) 100 }

/-- `Animal.feed(food_source)`: `hunger = max(hunger - nutrition, 0)`,
`energy = max(energy + nutrition, 0)` (note: a floor, not a cap), then
colon fill. -/
def feed (a : Animal) (food_nutrition : ℚ) : Animal :=
  increase_colon_fill
    { a with hunger := max (a.hunger - food_nutrition) 0,
             energy := max (a.energy + food_nutrition) 0 }

/-- `Animal.die(cause)`: terminal; a second call changes nothing.
(`_handle_post_death` clears `born` and prints.) -/
def die (a : Animal) (cause : DeathCause) : Animal :=
  if ¬a.is_dead then
    { a with is_dead := true, cause_of_death := some cause, born := false }
  else a

/-- `Animal._age_animal`. -/
def age_animal (a : Animal) : Animal :=
  let a := { a with age := a.age + 1 }
  if a.age ≥ 20 ∧ ¬a.is_adult then { a with is_adult := true } else a

/-- `Animal._increase_hunger`. -/
def increase_hunger (a : Animal) : Animal :=
  { a with hunger := min (a.hunger + 10) 100 }

/-- `Animal._increase_thirst`. -/
def increase_thirst (a : Animal) : Animal :=
  { a with thirst := min (a.thirst + 10) 100 }

/-- `Animal._regenerate_energy`. -/
def regenerate_energy (a : Animal) : Animal :=
  if a.hunger < 100 then { a with energy := min (a.energy + 5) 100 } else a

/-- `Animal._check_death_conditions`: an `elif` chain, so at most one
branch fires, in this fixed priority order. -/
def check_death_conditions (a : Animal) : Animal :=
  if a.age ≥ a.max_age then a.die DeathCause.oldAge
  else if a.hunger ≥ 100 then a.die DeathCause.starvation
  else if a.thirst ≥ 100 then a.die DeathCause.dehydration
  else if a.body_temperature ≥ 42 then a.die DeathCause.hyperthermia
  else if a.energy ≤ 0 then a.die DeathCause.exhaustion
  else a

/-- `Animal.handle_vital_stats`: age, hunger, thirst, death check,
energy regeneration, in this order. -/
def handle_vital_stats (a : Animal) : Animal :=
  regenerate_energy (check_death_conditions
    (increase_thirst (increase_hunger (age_animal a))))

/-- `Animal.can_reproduce` (the base-class conditions). -/
def can_reproduce (a : Animal) : Bool :=
  a.sex = Sex.F ∧ ¬a.is_pregnant ∧ a.reproduction_cooldown ≤ 0 ∧
    a.age > 20 ∧ a.age < 50 ∧ a.hunger < 20 ∧ a.thirst < 20 ∧
    a.fertility ≥ 8

/-- `Herbivore.can_reproduce`: the base conditions and adulthood. -/
def herb_can_reproduce (a : Animal) : Bool :=
  a.can_reproduce ∧ a.is_adult

/-- `Herbivore.reproduce(other)`: may set pregnancy (gestation 20) and
always returns `None` — no immediate child. -/
def herb_reproduce (a other : Animal) : Animal × Option Animal :=
  if a.herb_can_reproduce ∧ other.is_adult ∧ a.species = other.species ∧
      a.sex ≠ other.sex then
    ({ a with is_pregnant := true, gestation_period := 20 }, none)
  else (a, none)

/-- `Animal.defecate`: empties the colon and flags the current cell. -/
def defecate (a : Animal) (g : Grid) : Animal × Grid :=
  ({ a with colon := 0 },
   setCell g a.row a.col { g a.row a.col with feces := true })

/-- `Animal.urinate`: empties the bladder and flags the current cell. -/
def urinate (a : Animal) (g : Grid) : Animal × Grid :=
  ({ a with bladder := 0 },
   setCell g a.row a.col { g a.row a.col with urine := true })

/-- `Predator._calculate_hunting_success_rate(speed)`:
`min(0.2 + (speed - 3.5) / 1.0, 1.0)` — capped above at 1 only. -/
def calculate_hunting_success_rate (speed : ℚ) : ℚ :=
  min (1/5 + (speed - 7/2) / 1) 1

end Animal

/-- `0 <= r < rows and 0 <= c < cols`, the bounds filter used everywhere. -/
def inb (rows cols r c : ℤ) : Bool :=
  0 ≤ r ∧ r < rows ∧ 0 ≤ c ∧ c < cols

/-- The 3x3 offset block in `for i in range(-1,2) for j in range(-1,2)`
order — note it includes `(0, 0)` (the cell itself). -/
def offsets9 : List (ℤ × ℤ) :=
  [(-1,-1), (-1,0), (-1,1), (0,-1), (0,0), (0,1), (1,-1), (1,0), (1,1)]

/-- The 8 surrounding offsets, `(0, 0)` excluded, in loop order. -/
def offsets8 : List (ℤ × ℤ) :=
  [(-1,-1), (-1,0), (-1,1), (0,-1), (0,1), (1,-1), (1,0), (1,1)]

/-- `Ecosystem._get_neighbors`: the in-bounds cells of the 3x3 block,
including `(row, col)` itself. -/
def get_neighbors (rows cols r c : ℤ) : List (ℤ × ℤ) :=
  (offsets9.map (fun p => (r + p.1, c + p.2))).filter
    (fun p => inb rows cols p.1 p.2)

/-- `Ecosystem.count_water_neighbors`: water cells among the 8
surrounding in-bounds cells (the tile itself excluded). -/
def count_water_neighbors (g : Grid) (rows cols r c : ℤ) : Nat :=
  ((offsets8.map (fun p => (r + p.1, c + p.2))).filter
    (fun p => inb rows cols p.1 p.2 ∧
      (g p.1 p.2).terrain_type = TerrainType.water)).length

/-- `Ecosystem._is_adjacent_to_water` (underscore version): the 4
orthogonal neighbours only. -/
def is_adjacent_to_water4 (g : Grid) (rows cols r c : ℤ) : Bool :=
  ([(-1,0), (1,0), (0,-1), (0,1)] : List (ℤ × ℤ)).any fun p =>
    inb rows cols (r + p.1) (c + p.2) ∧
      (g (r + p.1) (c + p.2)).terrain_type = TerrainType.water

/-- `Ecosystem.is_adjacent_to_water` (no underscore): all 8 neighbours. -/
def is_adjacent_to_water8 (g : Grid) (rows cols r c : ℤ) : Bool :=
  offsets8.any fun p =>
    inb rows cols (r + p.1) (c + p.2) ∧
      (g (r + p.1) (c + p.2)).terrain_type = TerrainType.water

/-- Row-major enumeration of the grid cells
(`for row in range(rows): for col in range(cols)`). -/
def cellList (rows cols : ℤ) : List (ℤ × ℤ) :=
  (List.range rows.toNat).flatMap fun r =>
    (List.range cols.toNat).map fun c => ((r : ℤ), (c : ℤ))

/-- `self.grid[r][c].water_volume += q`. -/
def addVolume (g : Grid) (r c : ℤ) (q : ℚ) : Grid :=
  setCell g r c { g r c with water_volume := (g r c).water_volume + q }

/-- The in-bounds cell rectangle as a finite set (for the flood-fill
termination measure). -/
def boundsFinset (rows cols : ℤ) : Finset (ℤ × ℤ) :=
  Finset.Icc 0 (rows - 1) ×ˢ Finset.Icc 0 (cols - 1)

/-- Number of in-bounds non-water cells (flood-fill measure). -/
def dryCount (rows cols : ℤ) (g : Grid) : Nat :=
  ((boundsFinset rows cols).filter
    (fun p => (g p.1 p.2).terrain_type ≠ TerrainType.water)).card

/-- One neighbour inspection of `Ecosystem._flood_fill`: an in-bounds
non-water cell with elevation `< 0.2` is replaced by
`Terrain('water', elevation)` (water volume 0) and pushed. -/
def convertIfDry (rows cols : ℤ) (st : Grid × List (ℤ × ℤ)) (nr nc : ℤ) :
    Grid × List (ℤ × ℤ) :=
  if inb rows cols nr nc ∧
      (st.1 nr nc).terrain_type ≠ TerrainType.water ∧
      (st.1 nr nc).elevation < 1/5 then
    (setCell st.1 nr nc
       { terrain_type := TerrainType.water,
         elevation := (st.1 nr nc).elevation },
     st.2 ++ [(nr, nc)])
  else st

/-- The four neighbour inspections of one `_flood_fill` loop iteration,
in source order `(-1,0), (1,0), (0,-1), (0,1)`. -/
def flood_neighbors (rows cols : ℤ) (g : Grid) (r c : ℤ) :
    Grid × List (ℤ × ℤ) :=
  convertIfDry rows cols
    (convertIfDry rows cols
      (convertIfDry rows cols
        (convertIfDry rows cols (g, []) (r - 1) c) (r + 1) c) r (c - 1))
    r (c + 1)

theorem inb_iff (rows cols r c : ℤ) :
    inb rows cols r c = true ↔ 0 ≤ r ∧ r < rows ∧ 0 ≤ c ∧ c < cols := by
  simp [inb]

theorem dryCount_addVolume (rows cols : ℤ) (g : Grid) (r c : ℤ) (q : ℚ) :
    dryCount rows cols (addVolume g r c q) = dryCount rows cols g := by
  unfold dryCount
  congr 1
  apply Finset.filter_congr
  intro p _
  by_cases h : p.1 = r ∧ p.2 = c
  · simp [addVolume, setCell, h]
  · simp [addVolume, setCell, h]

theorem dryCount_convertIfDry (rows cols : ℤ) (st : Grid × List (ℤ × ℤ))
    (nr nc : ℤ) :
    dryCount rows cols (convertIfDry rows cols st nr nc).1 +
      (convertIfDry rows cols st nr nc).2.length =
    dryCount rows cols st.1 + st.2.length := by
  unfold convertIfDry
  split
  · rename_i h
    obtain ⟨hb, hdry, _⟩ := h
    rw [inb_iff] at hb
    simp only [List.length_append, List.length_cons, List.length_nil]
    have hmem : (nr, nc) ∈ (boundsFinset rows cols).filter
        (fun p => (st.1 p.1 p.2).terrain_type ≠ TerrainType.water) := by
      simp only [Finset.mem_filter, boundsFinset, Finset.mem_product,
        Finset.mem_Icc]
      exact ⟨⟨⟨hb.1, by omega⟩, hb.2.2.1, by omega⟩, hdry⟩
    have hfe : ((boundsFinset rows cols).filter
        (fun p => ((setCell st.1 nr nc
          { terrain_type := TerrainType.water,
            elevation := (st.1 nr nc).elevation }) p.1 p.2).terrain_type ≠
              TerrainType.water)) =
        ((boundsFinset rows cols).filter
          (fun p => (st.1 p.1 p.2).terrain_type ≠ TerrainType.water)).erase
            (nr, nc) := by
      ext p
      simp only [Finset.mem_filter, Finset.mem_erase]
      by_cases hp : p.1 = nr ∧ p.2 = nc
      · have hpe : p = (nr, nc) := Prod.ext hp.1 hp.2
        simp [setCell, hp, hpe]
      · have hpe : p ≠ (nr, nc) := by
          intro hq
          exact hp ⟨by rw [hq], by rw [hq]⟩
        simp only [setCell, hp, if_false, hpe, ne_eq,
          not_false_eq_true, true_and]
    unfold dryCount
    rw [hfe, Finset.card_erase_of_mem hmem]
    have hpos : 0 < ((boundsFinset rows cols).filter
        (fun p => (st.1 p.1 p.2).terrain_type ≠ TerrainType.water)).card :=
      Finset.card_pos.mpr ⟨(nr, nc), hmem⟩
    omega
  · rfl

theorem dryCount_flood_neighbors (rows cols : ℤ) (g : Grid) (r c : ℤ) :
    dryCount rows cols (flood_neighbors rows cols g r c).1 +
      (flood_neighbors rows cols g r c).2.length =
    dryCount rows cols g := by
  have a := dryCount_convertIfDry rows cols (g, []) (r - 1) c
  have b := dryCount_convertIfDry rows cols
    (convertIfDry rows cols (g, []) (r - 1) c) (r + 1) c
  have d := dryCount_convertIfDry rows cols
    (convertIfDry rows cols (convertIfDry rows cols (g, []) (r - 1) c)
      (r + 1) c) r (c - 1)
  have e := dryCount_convertIfDry rows cols
    (convertIfDry rows cols
      (convertIfDry rows cols (convertIfDry rows cols (g, []) (r - 1) c)
        (r + 1) c) r (c - 1)) r (c + 1)
  simp only [List.length_nil] at a
  unfold flood_neighbors
  omega

/-- `Ecosystem._flood_fill(row, col, water_amount)`: pops a cell, adds
`water_amount / 4` to its volume, converts dry low-elevation orthogonal
neighbours to water and pushes them.  The Python stack pops and appends
at the end; it is modelled with its top at the head, so the pushes of an
iteration go reversed onto the front.  Termination: each iteration
removes one stack entry and each push turns one in-bounds dry cell to
water. -/
def flood_fill (rows cols : ℤ) (amt : ℚ) : Grid → List (ℤ × ℤ) → Grid
  | g, [] => g
  | g, (r, c) :: rest =>
    flood_fill rows cols amt
      (flood_neighbors rows cols (addVolume g r c (amt / 4)) r c).1
      ((flood_neighbors rows cols (addVolume g r c (amt / 4)) r c).2.reverse
        ++ rest)
termination_by g stack => stack.length + 2 * dryCount rows cols g
decreasing_by
  simp only [List.length_append, List.length_reverse, List.length_cons]
  have hc := dryCount_flood_neighbors rows cols (addVolume g r c (amt / 4)) r c
  have ha := dryCount_addVolume rows cols g r c (amt / 4)
  omega

/-- `Ecosystem._choose_terrain_type(elevation)`. -/
def choose_terrain_type (elevation : ℚ) (rng : Rng) : TerrainType × Rng :=
  if elevation < 30 then
    let (x, r1) := rng.next
    (if x < 2/5 then TerrainType.water else TerrainType.land, r1)
  else rng.choice [TerrainType.vegetation, TerrainType.land] TerrainType.land

/-- The cell-filling loop of `Ecosystem._generate_terrain`: random
elevation in `[0,100]`, a terrain type, water volume 100 for water
cells and 0 otherwise. -/
def generate_cells (rows cols : ℤ) (g : Grid) (rng : Rng) : Grid × Rng :=
  (cellList rows cols).foldl
    (fun st p =>
      let (e, r1) := st.2.uniform 0 100
      let (tt, r2) := choose_terrain_type e r1
      (setCell st.1 p.1 p.2
        { terrain_type := tt, elevation := e,
          water_volume := if tt = TerrainType.water then 100 else 0 }, r2))
    (g, rng)

/-- `Ecosystem.is_land_and_surrounded_by_water(row, col, threshold)`:
counts water cells over `_get_neighbors` (the 3x3 block including the
cell itself). -/
def is_land_and_surrounded_by_water (g : Grid) (rows cols r c : ℤ)
    (threshold : Nat) : Bool :=
  (g r c).terrain_type ≠ TerrainType.water ∧
    threshold ≤ ((get_neighbors rows cols r c).filter
      (fun q => (g q.1 q.2).terrain_type = TerrainType.water)).length

/-- `Ecosystem._identify_new_water_tiles`; the source tests
`symbol != '▓'`, equivalent to `terrain_type != 'water'` by the symbol
table of `Terrain.symbol`. -/
def identify_new_water_tiles (g : Grid) (rows cols : ℤ) : List (ℤ × ℤ) :=
  (cellList rows cols).filter fun p =>
    (g p.1 p.2).terrain_type ≠ TerrainType.water ∧
      is_land_and_surrounded_by_water g rows cols p.1 p.2 3

/-- `Ecosystem._convert_to_water`: each identified tile becomes
`Terrain('water', elevation, 100)`. -/
def convert_to_water (g : Grid) (tiles : List (ℤ × ℤ)) : Grid :=
  tiles.foldl
    (fun g p => setCell g p.1 p.2
      { terrain_type := TerrainType.water,
        elevation := (g p.1 p.2).elevation, water_volume := 100 })
    g

/-- `Ecosystem.expand_water_bodies(expansion_cycles)`. -/
def expand_water_bodies (rows cols : ℤ) : Nat → Grid → Grid
  | 0, g => g
  | n + 1, g =>
    expand_water_bodies rows cols n
      (convert_to_water g (identify_new_water_tiles g rows cols))

/-- `Ecosystem._generate_terrain`: fill every cell, then expand water
bodies for 3 cycles. -/
def generate_terrain (rows cols : ℤ) (g : Grid) (rng : Rng) : Grid × Rng :=
  let (g1, rng1) := generate_cells rows cols g rng
  (expand_water_bodies rows cols 3 g1, rng1)

/-- `Ecosystem._calculate_smoothed_terrain(row, col)`: the cell becomes
`Terrain('water', elevation)` when strictly more than 10 of its
(at most 9, self-inclusive) neighbour samples are water, else keeps its
cell. -/
def calculate_smoothed_terrain (g : Grid) (rows cols r c : ℤ) : Terrain :=
  if 10 < ((get_neighbors rows cols r c).filter
      (fun q => (g q.1 q.2).terrain_type = TerrainType.water)).length then
    { terrain_type := TerrainType.water, elevation := (g r c).elevation }
  else g r c

/-- One smoothing iteration of `Ecosystem._smooth_terrain` (a whole new
grid computed from the old one). -/
def smooth_pass (rows cols : ℤ) (g : Grid) : Grid :=
  fun r c =>
    if inb rows cols r c then calculate_smoothed_terrain g rows cols r c
    else g r c

/-- The isolated-water loop of
`Ecosystem.refine_water_bodies_and_create_shorelines`: a water cell with
fewer than 2 water neighbours becomes land or sand (50/50). -/
def refine_water_bodies (rows cols : ℤ) (g : Grid) (rng : Rng) :
    Grid × Rng :=
  (cellList rows cols).foldl
    (fun st p =>
      if (st.1 p.1 p.2).terrain_type = TerrainType.water ∧
          count_water_neighbors st.1 rows cols p.1 p.2 < 2 then
        let (x, r') := st.2.next
        (setCell st.1 p.1 p.2
          { terrain_type :=
              if x < 1/2 then TerrainType.land else TerrainType.sand,
            elevation := (st.1 p.1 p.2).elevation }, r')
      else st)
    (g, rng)

/-- `Ecosystem._generate_shorelines`: every land/vegetation cell
adjacent (8-neighbourhood, via `is_adjacent_to_water`) to water becomes
sand. -/
def generate_shorelines (rows cols : ℤ) (g : Grid) : Grid :=
  (cellList rows cols).foldl
    (fun g p =>
      if ((g p.1 p.2).terrain_type = TerrainType.land ∨
          (g p.1 p.2).terrain_type = TerrainType.vegetation) ∧
          is_adjacent_to_water8 g rows cols p.1 p.2 then
        setCell g p.1 p.2
          { terrain_type := TerrainType.sand,
            elevation := (g p.1 p.2).elevation }
      else g)
    g

/-- `Ecosystem._smooth_terrain`: three smoothing passes, then
`refine_water_bodies_and_create_shorelines`. -/
def smooth_terrain (rows cols : ℤ) (g : Grid) (rng : Rng) : Grid × Rng :=
  let g3 := smooth_pass rows cols (smooth_pass rows cols
    (smooth_pass rows cols g))
  let st := refine_water_bodies rows cols g3 rng
  (generate_shorelines rows cols st.1, st.2)

/-- One neighbour step of `Ecosystem.adjust_water_volume`: if the
neighbour is lower, move 5% of the source volume, then possibly
reclassify source (below 10 → land) and target (above 10 → water). -/
def adjust_tile_transfer (g : Grid) (row col nr nc : ℤ) : Grid :=
  if (g nr nc).elevation < (g row col).elevation then
    let wm := min ((g row col).water_volume * (1/20))
      ((g row col).water_volume)
    let g1 := addVolume g nr nc wm
    let g2 := addVolume g1 row col (-wm)
    let g3 :=
      if (g2 row col).water_volume < 10 then
        setCell g2 row col
          { terrain_type := TerrainType.land,
            elevation := (g2 row col).elevation }
      else g2
    if (g3 nr nc).water_volume > 10 ∧
        (g3 nr nc).terrain_type ≠ TerrainType.water then
      setCell g3 nr nc
        { terrain_type := TerrainType.water,
          elevation := (g3 nr nc).elevation,
          water_volume := (g3 nr nc).water_volume }
    else g3
  else g

/-- `Ecosystem.adjust_water_volume`: row-major over cells; a cell that
is water when reached distributes to its lower neighbours
(`_get_neighbors` order; the self-entry is skipped because an elevation
is never below itself). -/
def adjust_water_volume (rows cols : ℤ) (g : Grid) : Grid :=
  (cellList rows cols).foldl
    (fun g p =>
      if (g p.1 p.2).terrain_type = TerrainType.water then
        (get_neighbors rows cols p.1 p.2).foldl
          (fun g q => adjust_tile_transfer g p.1 p.2 q.1 q.2) g
      else g)
    g

/-- `Ecosystem._precipitate`: one `randint(0,100)` draw; when below the
precipitation level, flood-fill from every cell that is water when the
row-major scan reaches it, then redistribute water downhill. -/
def precipitate (rows cols : ℤ) (level : ℤ) (g : Grid) (rng : Rng) :
    Grid × Rng :=
  let (v, rng1) := rng.randint 0 100
  if v < level then
    let g1 := (cellList rows cols).foldl
      (fun g p =>
        if (g p.1 p.2).terrain_type = TerrainType.water then
          flood_fill rows cols 200 g [(p.1, p.2)]
        else g)
      g
    (adjust_water_volume rows cols g1, rng1)
  else (g, rng1)

/-- `Ecosystem._handle_extreme_heat`: at ambient temperature ≥ 100 every
water cell becomes `Terrain('land', elevation)`. -/
def handle_extreme_heat (rows cols : ℤ) (temp : ℚ) (g : Grid) : Grid :=
  if temp ≥ 100 then
    (cellList rows cols).foldl
      (fun g p =>
        if (g p.1 p.2).terrain_type = TerrainType.water then
          setCell g p.1 p.2
            { terrain_type := TerrainType.land,
              elevation := (g p.1 p.2).elevation }
        else g)
      g
  else g

/-- The occupancy index `self.animals_on_tile`
(`defaultdict(list)` from tile to the animals standing on it); animals
are identified by id, with their (immutable) species alongside. -/
def Tiles := ℤ × ℤ → List (Nat × Species)

/-- `list.remove(self)` on a tile's occupant list: drop the first entry
with the given id (identity equality in Python; ids are unique). -/
def removeFirstId : List (Nat × Species) → Nat → List (Nat × Species)
  | [], _ => []
  | e :: rest, i => if e.1 = i then rest else e :: removeFirstId rest i

/-- `animals_on_tile[(row, col)].remove(self)` guarded by membership. -/
def tilesRemove (t : Tiles) (pos : ℤ × ℤ) (i : Nat) : Tiles :=
  fun p => if p = pos then removeFirstId (t p) i else t p

/-- `animals_on_tile[(row, col)].append(self)`. -/
def tilesAppend (t : Tiles) (pos : ℤ × ℤ) (e : Nat × Species) : Tiles :=
  fun p => if p = pos then t p ++ [e] else t p

/-- `Ecosystem.is_tile_occupied_by_same_species(tile, species)`. -/
def is_tile_occupied_by_same_species (t : Tiles) (pos : ℤ × ℤ)
    (sp : Species) : Bool :=
  (t pos).any fun e => e.2 = sp

/-- `Ecosystem._get_valid_moves(row, col)`: the 3x3 block (with the cell
itself), bounds-filtered, restricted to land/vegetation, shuffled. -/
def get_valid_moves (g : Grid) (rows cols r c : ℤ) (rng : Rng) :
    List (ℤ × ℤ) × Rng :=
  let moves := offsets9.map fun p => (r + p.1, c + p.2)
  let valid := moves.filter fun p => inb rows cols p.1 p.2
  let valid2 := valid.filter fun p =>
    (g p.1 p.2).terrain_type = TerrainType.land ∨
      (g p.1 p.2).terrain_type = TerrainType.vegetation
  rng.shuffle valid2

/-- `Ecosystem.get_nearby_animals(animal, radius=5)` over
`herbivores + predators`: adult, not the animal itself, within Euclidean
distance `radius` (`sqrt(dr^2+dc^2) <= radius` is stated squared, which
is equivalent for `radius ≥ 0`). -/
def get_nearby_animals (allAnimals : List Animal) (a : Animal)
    (radius : ℤ) : List Animal :=
  allAnimals.filter fun b =>
    b.id ≠ a.id ∧ b.is_adult ∧
      (a.row - b.row) ^ 2 + (a.col - b.col) ^ 2 ≤ radius ^ 2

/-- Python `min(valid_moves, key=...)`: the first element attaining the
minimum key. -/
def listMinBy (f : ℤ × ℤ → ℚ) (d : ℤ × ℤ) : List (ℤ × ℤ) → ℤ × ℤ
  | [] => d
  | x :: xs => xs.foldl (fun best y => if f y < f best then y else best) x

/-- `Animal._choose_new_location`: juveniles near adults head for the
adults' centroid (first Manhattan-minimal candidate); otherwise a
uniformly random candidate. -/
def choose_new_location (a : Animal) (valid_moves : List (ℤ × ℤ))
    (nearby : List Animal) (rng : Rng) : (ℤ × ℤ) × Rng :=
  if ¬nearby.isEmpty ∧ ¬a.is_adult then
    let cr : ℚ := ((nearby.map fun h => (h.row : ℚ)).sum) / nearby.length
    let cc : ℚ := ((nearby.map fun h => (h.col : ℚ)).sum) / nearby.length
    (listMinBy (fun pos => |(pos.1 : ℚ) - cr| + |(pos.2 : ℚ) - cc|)
      (a.row, a.col) valid_moves, rng)
  else rng.choice valid_moves (a.row, a.col)

/-- `Animal.move(valid_moves, nearby_adults, ecosystem)`: guard, filter
out tiles occupied by the same species, choose, and update the occupancy
index (remove from old tile, append at new tile). -/
def animal_move (ts : Tiles) (a : Animal) (valid_moves : List (ℤ × ℤ))
    (nearby : List Animal) (rng : Rng) : Animal × Tiles × Rng :=
  if valid_moves ≠ [] ∧ a.energy > 0 ∧ ¬a.is_dead then
    let vm := valid_moves.filter fun m =>
      ¬is_tile_occupied_by_same_species ts m a.species
    if vm ≠ [] then
      let (pos, rng1) := choose_new_location a vm nearby rng
      let ts1 := tilesRemove ts (a.row, a.col) a.id
      let ts2 := tilesAppend ts1 pos (a.id, a.species)
      ({ a with row := pos.1, col := pos.2 }, ts2, rng1)
    else (a, ts, rng)
  else (a, ts, rng)

/-- `Predator.move(valid_moves)`: ignores occupancy, pays 1 energy. -/
def predator_move (a : Animal) (valid_moves : List (ℤ × ℤ)) (rng : Rng) :
    Animal × Rng :=
  if valid_moves ≠ [] ∧ a.energy > 0 ∧ ¬a.is_dead then
    let (pos, rng1) := rng.choice valid_moves (a.row, a.col)
    ({ a with row := pos.1, col := pos.2, energy := a.energy - 1 }, rng1)
  else (a, rng)

/-- `Ecosystem.handle_drinking(animal)`: uses `_is_adjacent_to_water`,
the 4-neighbourhood check. -/
def handle_drinking (g : Grid) (rows cols : ℤ) (a : Animal) : Animal :=
  if ¬a.is_dead ∧ is_adjacent_to_water4 g rows cols a.row a.col then
    { a with thirst := max (a.thirst - 50) 0 }
  else a

/-- `Ecosystem._feed_herbivore`: on a vegetation cell, feed on a fresh
`Plant()` (nutrition 30) and revert the cell to land. -/
def feed_herbivore (g : Grid) (a : Animal) : Animal × Grid :=
  if (g a.row a.col).terrain_type = TerrainType.vegetation then
    (a.feed 30,
     setCell g a.row a.col
       { terrain_type := TerrainType.land,
         elevation := (g a.row a.col).elevation })
  else (a, g)

/-- `Ecosystem._is_adjacent` / `Predator._is_near`: Chebyshev
distance ≤ 1. -/
def is_adjacent (row1 col1 row2 col2 : ℤ) : Bool :=
  |row1 - row2| ≤ 1 ∧ |col1 - col2| ≤ 1

/-- `Predator._find_nearby_prey`: herbivores within Chebyshev distance
1 — the dead included. -/
def find_nearby_prey (herb : List Animal) (p : Animal) : List Animal :=
  herb.filter fun h => is_adjacent p.row p.col h.row h.col

/-- `list.remove(prey)` on the herbivore roster. -/
def removeFirstById : List Animal → Nat → List Animal
  | [], _ => []
  | a :: rest, i => if a.id = i then rest else a :: removeFirstById rest i

/-- `Predator.hunt(prey, ecosystem)`: pays 20 energy unconditionally; on
a successful roll the prey dies of predation and `_consume_prey` drops
hunger/thirst and removes the prey from the herbivore roster. -/
def hunt (p : Animal) (prey : Animal) (herb : List Animal) (rng : Rng) :
    Animal × List Animal × Rng :=
  let p1 := { p with energy := p.energy - 20 }
  let (x, rng1) := rng.next
  if x < p1.hunting_success_rate then
    let herb1 := herb.map fun h =>
      if h.id = prey.id then h.die DeathCause.predation else h
    let herb2 := removeFirstById herb1 prey.id
    ({ p1 with hunger := max (p1.hunger - p1.hunger_decrease_on_feed) 0,
               thirst := max (p1.thirst - 50) 0 }, herb2, rng1)
  else (p1, herb, rng1)

/-- `Predator.feed(ecosystem)`: choose uniformly among the nearby
herbivores (dead ones included) and hunt. -/
def predator_feed (p : Animal) (herb : List Animal) (rng : Rng) :
    Animal × List Animal × Rng :=
  let prey_list := find_nearby_prey herb p
  if ¬prey_list.isEmpty then
    let (prey, rng1) := rng.choice prey_list default
    hunt p prey herb rng1
  else (p, herb, rng)

/-- `Ecosystem._feed_predator`: scan the herbivores; at the first
adjacent living one, the predator feeds (and the scan breaks). -/
def feed_predator (p : Animal) (herb : List Animal) (rng : Rng) :
    Animal × List Animal × Rng :=
  if herb.any (fun h => is_adjacent p.row p.col h.row h.col ∧ ¬h.is_dead)
  then predator_feed p herb rng
  else (p, herb, rng)

/-- `Ecosystem._can_reproduce_together`. -/
def can_reproduce_together (a b : Animal) : Bool :=
  a.species = b.species ∧ a.sex ≠ b.sex ∧
    |a.row - b.row| ≤ 1 ∧ |a.col - b.col| ≤ 1

/-- `Ecosystem.handle_reproduction(animal, new_animals)`: try each other
same-species animal in roster order; `reproduce` never returns a child,
so the `break` branch is reached only if it would. -/
def handle_reproduction : Animal → List Animal → List Animal →
    Animal × List Animal
  | a, [], acc => (a, acc)
  | a, other :: rest, acc =>
    if can_reproduce_together a other then
      let r := Animal.herb_reproduce a other
      match r.2 with
      | some child => (r.1, acc ++ [child])
      | none => handle_reproduction r.1 rest acc
    else handle_reproduction a rest acc

/-- The `Ecosystem` state: grid, rosters, plants, climate, seasons,
population time series, the occupancy index and the id counter (the
global `animal_id_counter`, owned here). -/
structure EcoState where
  rows : ℤ
  cols : ℤ
  grid : Grid
  manual_temperature_control : Bool := false
  herbivores : List Animal := []
  predators : List Animal := []
  plants : List Plant := []
  cycle : Nat := 0
  ambient_temperature : ℚ := 20
  precipitation_level : ℤ := 0
  season_index : Nat := 0
  season_cycle : Nat := 0
  season_duration : Nat := 50
  herbivore_population_data : List Nat := []
  predator_population_data : List Nat := []
  plant_population_data : List Nat := []
  animals_on_tile : Tiles := fun _ => []
  next_id : Nat := 0

/-- `Season.apply_seasonal_effects(ecosystem)`: temperature shift, plant
nutrition scaled by `food_growth_rate / 2`, predator success rates
scaled (compoundingly) by `predator_efficiency`. -/
def apply_seasonal_effects (sn : Season) (s : EcoState) : EcoState :=
  { s with
    ambient_temperature := s.ambient_temperature + sn.temperature_modifier,
    plants := s.plants.map fun p =>
      { p with nutrition := p.nutrition * (sn.food_growth_rate / 2) },
    predators := s.predators.map fun p =>
      { p with hunting_success_rate :=
          p.hunting_success_rate * sn.predator_efficiency } }

/-- `Ecosystem._update_season_cycle` / `_change_season`. -/
def update_season_cycle (s : EcoState) : EcoState :=
  let s := { s with season_cycle := s.season_cycle + 1 }
  if s.season_cycle ≥ s.season_duration then
    let idx := (s.season_index + 1) % seasons.length
    apply_seasonal_effects (seasons.getD idx ⟨0, 0, 0⟩)
      { s with season_index := idx, season_cycle := 0 }
  else s

/-- `Ecosystem._adjust_temperature`: unless under manual control,
`ambient_temperature = 10 * sin(pi * cycle / 180) + 20`; `math.sin` is
external and abstracted by the parameter `sinq`. -/
def adjust_temperature (sinq : Nat → ℚ) (s : EcoState) : EcoState :=
  if ¬s.manual_temperature_control then
    { s with ambient_temperature := 10 * sinq s.cycle + 20 }
  else s

/-- `Ecosystem.update_environment`: temperature, precipitation, extreme
heat, season cycle (the `_evaporate_water` call is commented out in the
source and omitted here). -/
def update_environment (sinq : Nat → ℚ) (s : EcoState) (rng : Rng) :
    EcoState × Rng :=
  let s1 := adjust_temperature sinq s
  let pr := precipitate s1.rows s1.cols s1.precipitation_level s1.grid rng
  let s2 := { s1 with grid := pr.1 }
  let s3 := { s2 with
    grid := handle_extreme_heat s2.rows s2.cols s2.ambient_temperature
      s2.grid }
  (update_season_cycle s3, pr.2)

/-- `Ecosystem.handle_movement(animal)`: shuffled valid moves, herd
neighbours over `herbivores + predators` at radius 5, then
`Animal.move`. -/
def handle_movement (rows cols : ℤ) (g : Grid) (allAnimals : List Animal)
    (ts : Tiles) (a : Animal) (rng : Rng) : Animal × Tiles × Rng :=
  if ¬a.is_dead then
    let (vm, rng1) := get_valid_moves g rows cols a.row a.col rng
    let nearby := get_nearby_animals allAnimals a 5
    animal_move ts a vm nearby rng1
  else (a, ts, rng)

/-- The loop-carried state of `Ecosystem.update_herbivores`: the roster
with in-place mutations (`arr`), the indices appended to
`remaining_herbivores` (`kept`), the `new_herbivores` list, and the
shared grid / occupancy / generator.  Indices model Python's object
aliasing: `remaining_herbivores` holds references that later mutations
(e.g. vital stats on a decaying animal) continue to affect. -/
structure HerbPassState where
  arr : List Animal
  kept : List Nat
  newborns : List Animal
  grid : Grid
  tiles : Tiles
  rng : Rng

/-- One iteration of the `update_herbivores` loop, for the animal at
index `k`: `handle_decay`, `handle_vital_stats`, and — for survivors —
feeding, drinking, movement, reproduction, defecation, urination, and
being kept. -/
def herb_step (rows cols : ℤ) (preds : List Animal) (st : HerbPassState)
    (k : Nat) : HerbPassState :=
  let a0 := st.arr.getD k default
  let dec := a0.is_dead
  let a1 := if dec then a0.undergo_decay else a0
  let kept1 := if dec ∧ a1.decay > 0 then st.kept ++ [k] else st.kept
  let a2 := a1.handle_vital_stats
  if ¬a2.is_dead then
    let fg := feed_herbivore st.grid a2
    let a4 := handle_drinking fg.2 rows cols fg.1
    let mv := handle_movement rows cols fg.2 (st.arr ++ preds) st.tiles
      a4 st.rng
    let others := st.arr.eraseIdx k
    let rp := handle_reproduction mv.1 others st.newborns
    let d1 := Animal.defecate rp.1 fg.2
    let u1 := Animal.urinate d1.1 d1.2
    { arr := st.arr.set k u1.1, kept := kept1 ++ [k], newborns := rp.2,
      grid := u1.2, tiles := mv.2.1, rng := mv.2.2 }
  else
    { st with arr := st.arr.set k a2, kept := kept1 }

/-- `Ecosystem.update_herbivores`: iterate the loop body over the roster
and rebuild `self.herbivores` as `remaining + new`. -/
def update_herbivores (s : EcoState) (rng : Rng) : EcoState × Rng :=
  let st0 : HerbPassState :=
    ⟨s.herbivores, [], [], s.grid, s.animals_on_tile, rng⟩
  let st := (List.range s.herbivores.length).foldl
    (herb_step s.rows s.cols s.predators) st0
  ({ s with
      herbivores := (st.kept.map fun k => st.arr.getD k default) ++
        st.newborns,
      grid := st.grid, animals_on_tile := st.tiles }, st.rng)

/-- The loop-carried state of `Ecosystem.update_predators`. -/
structure PredPassState where
  parr : List Animal
  kept : List Nat
  herb : List Animal
  rng : Rng

/-- `Ecosystem.handle_feeding` for a predator (the liveness guard and
the `_feed_predator` scan). -/
def handle_feeding_pred (p : Animal) (herb : List Animal) (rng : Rng) :
    Animal × List Animal × Rng :=
  if ¬p.is_dead then feed_predator p herb rng else (p, herb, rng)

/-- One iteration of the `update_predators` loop: vital stats; survivors
move, drink, feed (possibly removing hunted herbivores) and are kept.
No decay handling and no reproduction happen in this pass. -/
def pred_step (rows cols : ℤ) (g : Grid) (st : PredPassState) (k : Nat) :
    PredPassState :=
  let p0 := st.parr.getD k default
  let p1 := p0.handle_vital_stats
  if ¬p1.is_dead then
    let gv := get_valid_moves g rows cols p1.row p1.col st.rng
    let pm := predator_move p1 gv.1 gv.2
    let p3 := handle_drinking g rows cols pm.1
    let fd := handle_feeding_pred p3 st.herb pm.2
    { parr := st.parr.set k fd.1, kept := st.kept ++ [k],
      herb := fd.2.1, rng := fd.2.2 }
  else { st with parr := st.parr.set k p1 }

/-- `Ecosystem.update_predators`. -/
def update_predators (s : EcoState) (rng : Rng) : EcoState × Rng :=
  let st0 : PredPassState := ⟨s.predators, [], s.herbivores, rng⟩
  let st := (List.range s.predators.length).foldl
    (pred_step s.rows s.cols s.grid) st0
  ({ s with predators := st.kept.map fun k => st.parr.getD k default,
            herbivores := st.herb }, st.rng)

/-- `Ecosystem.grow_plants`: each land cell converts to vegetation with
probability 1% (one draw per land cell), spawning a `Plant()`. -/
def grow_plants (s : EcoState) (rng : Rng) : EcoState × Rng :=
  let res := (cellList s.rows s.cols).foldl
    (fun (st : Grid × List Plant × Rng) p =>
      if (st.1 p.1 p.2).terrain_type = TerrainType.land then
        let (x, r') := st.2.2.next
        if x < 1/100 then
          (setCell st.1 p.1 p.2
            { terrain_type := TerrainType.vegetation,
              elevation := (st.1 p.1 p.2).elevation },
           st.2.1 ++ [{}], r')
        else (st.1, st.2.1, r')
      else st)
    (s.grid, s.plants, rng)
  ({ s with grid := res.1, plants := res.2.1 }, res.2.2)

/-- `Ecosystem.update_plants`: push the ambient temperature into each
plant, run its vitals, and purge the dead. -/
def update_plants (s : EcoState) : EcoState :=
  let ps := s.plants.map fun p =>
    Plant.handle_vital_stats { p with
      ambient_temperature := s.ambient_temperature }
  { s with plants := ps.filter fun p => ¬p.is_dead }

/-- `Ecosystem._update_animal_body_temperature_and_plant_nutrition`. -/
def update_body_temp_and_nutrition (s : EcoState) : EcoState :=
  { s with
    herbivores := s.herbivores.map fun a =>
      { a with body_temperature := a.body_temperature +
          (s.ambient_temperature - a.body_temperature) * (1/100) },
    predators := s.predators.map fun a =>
      { a with body_temperature := a.body_temperature +
          (s.ambient_temperature - a.body_temperature) * (1/100) },
    plants := s.plants.map fun p =>
      { p with nutrition := p.nutrition +
          (s.ambient_temperature - 20) * (1/10) } }

/-- `Ecosystem.update_population_data`: append the living counts (all
plants count). -/
def update_population_data (s : EcoState) : EcoState :=
  { s with
    herbivore_population_data := s.herbivore_population_data ++
      [(s.herbivores.filter fun h => ¬h.is_dead).length],
    predator_population_data := s.predator_population_data ++
      [(s.predators.filter fun p => ¬p.is_dead).length],
    plant_population_data := s.plant_population_data ++
      [s.plants.length] }

/-- `Ecosystem.update`: the fixed-order tick pipeline (the final
`print_daily_summary` only prints). -/
def tick (sinq : Nat → ℚ) (s : EcoState) (rng : Rng) : EcoState × Rng :=
  let e := update_environment sinq s rng
  let h := update_herbivores e.1 e.2
  let p := update_predators h.1 h.2
  let gp := grow_plants p.1 p.2
  let s4 := update_plants gp.1
  let s5 := update_body_temp_and_nutrition s4
  let s6 := update_population_data s5
  ({ s6 with cycle := s6.cycle + 1 }, gp.2)

/-- `n` consecutive calls of `Ecosystem.update`. -/
def run_ticks (sinq : Nat → ℚ) : EcoState → Rng → Nat → EcoState × Rng
  | s, rng, 0 => (s, rng)
  | s, rng, n + 1 =>
    let t := tick sinq s rng
    run_ticks sinq t.1 t.2 n

/-- `Animal._initialize_biological_attributes`, draws in source order
(`fertility` and `immune_system` share one draw; `migratory_pattern` is
the index into `['None', 'Seasonal', 'Nomadic']`). -/
def init_biological (a : Animal) (rng : Rng) : Animal × Rng :=
  let (st, r1) := rng.uniform (1/2) (3/2)
  let (ag, r2) := r1.uniform (1/2) (3/2)
  let (wi, r3) := r2.uniform (1/2) (3/2)
  let (it, r4) := r3.uniform (1/2) (3/2)
  let (fe, r5) := r4.uniform (1/2) (3/2)
  let (se, r6) := r5.uniform (1/2) (3/2)
  let (sh, r7) := r6.randint 1 10
  let (te, r8) := r7.uniform 1 10
  let (mi, r9) := r8.below 3
  let (b1, r10) := r9.next
  let (b2, r11) := r10.next
  let (b3, r12) := r11.next
  ({ a with
      body_temperature := 37, strength := st, agility := ag, wisdom := wi,
      intelligence := it, fertility := fe, immune_system := fe,
      sensory_perception := se, gestation_period := 0,
      reproduction_cooldown := 0, is_pregnant := false,
      offspring_count := 0, social_hierarchy_rank := sh,
      territory_size := te, migratory_pattern := mi, aggressive := b1,
      curious := b2, social := b3, colon := 0, bladder := 0,
      random_move_probability := 1/5, nutrition := 40, born := true }, r12)

/-- `Animal._initialize_basic_attributes`: needs reset, age is
`randint(20, 40)` behind a coin flip else `0`, `max_age` in
`randint(50, 100)`, then the biological attributes. -/
def init_basic (a : Animal) (rng : Rng) : Animal × Rng :=
  let a := { a with hunger := 0, thirst := 0, energy := 100,
                    is_adult := false, is_dead := false,
                    cause_of_death := none, decay := 100 }
  let (coin, r1) := rng.below 2
  let (age, r2) :=
    if coin = 0 then r1.randint 20 40 else ((0 : ℤ), r1)
  let (ma, r3) := r2.randint 50 100
  init_biological { a with age := age, max_age := ma } r3

/-- `Animal.__init__(row, col, speed, sex, color, species)` plus the id
from the global counter. -/
def make_animal (i : Nat) (row col : ℤ) (speed : ℚ) (sex : Sex)
    (color : ℤ × ℤ × ℤ) (species : Species) (rng : Rng) : Animal × Rng :=
  init_basic
    { id := i, row := row, col := col, speed := speed, sex := sex,
      color := color, species := species } rng

/-- `Herbivore.__init__`. -/
def make_herbivore (i : Nat) (row col : ℤ) (speed : ℚ) (sex : Sex)
    (rng : Rng) : Animal × Rng :=
  let (a, r1) := make_animal i row col speed sex (0, 255, 255)
    Species.Herbivore rng
  let (rc, r2) := r1.randint 1 5
  ({ a with reproduction_count := rc, gestation_period := 40,
            is_pregnant := false, reproduction_cooldown := 0 }, r2)

/-- `Predator.__init__`: hunting success rate from speed, feed value 80,
enhanced immune system. -/
def make_predator (i : Nat) (row col : ℤ) (speed : ℚ) (sex : Sex)
    (rng : Rng) : Animal × Rng :=
  let (a, r1) := make_animal i row col speed sex (255, 0, 0)
    Species.Predator rng
  let (im, r2) := r1.uniform 1 2
  let hr := Animal.calculate_hunting_success_rate speed
  ({ a with hunting_success_rate := hr,
            hunger_decrease_on_feed := 80, immune_system := im }, r2)

/-- `Ecosystem.is_tile_occupied(row, col)`. -/
def is_tile_occupied (herb pred : List Animal) (r c : ℤ) : Bool :=
  (herb ++ pred).any fun a => a.row = r ∧ a.col = c

/-- `Ecosystem._generate_valid_location`: rejection-sample a non-water
unoccupied tile (the source reads `symbol != '▓'`, i.e. not water).  The
Python `while True` is given explicit fuel; on exhaustion `(0, 0)` is
returned (the Python program would not terminate). -/
def generate_valid_location (g : Grid) (rows cols : ℤ)
    (herb pred : List Animal) (rng : Rng) :
    Nat → (ℤ × ℤ) × Rng
  | 0 => ((0, 0), rng)
  | fuel + 1 =>
    let (r, rng1) := rng.randint 0 (rows - 1)
    let (c, rng2) := rng1.randint 0 (cols - 1)
    if (g r c).terrain_type ≠ TerrainType.water ∧
        ¬is_tile_occupied herb pred r c then
      ((r, c), rng2)
    else generate_valid_location g rows cols herb pred rng2 fuel

/-- The herbivore list comprehension of `Ecosystem._initialize_animals`;
while it runs, `self.herbivores` and `self.predators` are still the
empty lists set by `_initialize_environment_attributes`, so the
occupancy check sees no animals. -/
def build_herbivores (g : Grid) (rows cols : ℤ) (fuel : Nat) :
    Nat → Nat → Rng → List Animal × Nat × Rng
  | 0, nid, rng => ([], nid, rng)
  | n + 1, nid, rng =>
    let (loc, r1) := generate_valid_location g rows cols [] [] rng fuel
    let (sp, r2) := r1.uniform (1/2) (3/2)
    let (sx, r3) := r2.below 2
    let (a, r4) := make_herbivore nid loc.1 loc.2 sp
      (if sx = 0 then Sex.M else Sex.F) r3
    let rest := build_herbivores g rows cols fuel n (nid + 1) r4
    (a :: rest.1, rest.2.1, rest.2.2)

/-- The predator list comprehension of `Ecosystem._initialize_animals`;
`self.herbivores` is complete by now but `self.predators` is still
empty during its own construction. -/
def build_predators (g : Grid) (rows cols : ℤ) (fuel : Nat)
    (herb : List Animal) :
    Nat → Nat → Rng → List Animal × Nat × Rng
  | 0, nid, rng => ([], nid, rng)
  | n + 1, nid, rng =>
    let (loc, r1) := generate_valid_location g rows cols herb [] rng fuel
    let (sp, r2) := r1.uniform (1/2) (3/2)
    let (sx, r3) := r2.below 2
    let (a, r4) := make_predator nid loc.1 loc.2 sp
      (if sx = 0 then Sex.M else Sex.F) r3
    let rest := build_predators g rows cols fuel herb n (nid + 1) r4
    (a :: rest.1, rest.2.1, rest.2.2)

/-- `Ecosystem.__init__(rows, cols, herbivore_count, predator_count)`:
environment attributes, terrain generation, smoothing, animal rosters.
The not-yet-filled grid cells are a formal placeholder (every in-bounds
cell is assigned before being read). -/
def eco_init (rows cols : ℤ) (hc pc : Nat) (fuel : Nat) (rng : Rng) :
    EcoState × Rng :=
  let g0 : Grid := fun _ _ =>
    { terrain_type := TerrainType.land, elevation := 0 }
  let (g1, rng1) := generate_terrain rows cols g0 rng
  let (g2, rng2) := smooth_terrain rows cols g1 rng1
  let hs := build_herbivores g2 rows cols fuel hc 0 rng2
  let ps := build_predators g2 rows cols fuel hs.1 pc hs.2.1 hs.2.2
  ({ rows := rows, cols := cols, grid := g2, herbivores := hs.1,
     predators := ps.1, next_id := ps.2.1 }, ps.2.2)

/-! ## Spec-side definitions (for refinement comparisons) -/

/-- Modelled from the spec's words: the hunting success rate
`clamp(0.2 + (speed − 3.5), 0, 1)`. -/
def spec_clamp_rate (s : ℚ) : ℚ :=
  max 0 (min 1 (1/5 + (s - 7/2)))

/-- Modelled from the spec's words: the first satisfied death condition
in the priority order OldAge, Starvation, Dehydration, Hyperthermia,
Exhaustion. -/
def spec_first_cause (a : Animal) : Option DeathCause :=
  if a.age ≥ a.max_age then some DeathCause.oldAge
  else if a.hunger ≥ 100 then some DeathCause.starvation
  else if a.thirst ≥ 100 then some DeathCause.dehydration
  else if a.body_temperature ≥ 42 then some DeathCause.hyperthermia
  else if a.energy ≤ 0 then some DeathCause.exhaustion
  else none

/-- The spec's water invariant: every cell has nonnegative
`water_volume`, and a water-classified cell has strictly positive
volume. -/
def waterInv (g : Grid) : Prop :=
  ∀ r c : ℤ, 0 ≤ (g r c).water_volume ∧
    ((g r c).terrain_type = TerrainType.water →
      0 < (g r c).water_volume)

/-- The flood-fill loop invariant: nonnegative volumes, and every
water cell either has positive volume already or is still on the stack
(it receives `water_amount / 4` when popped). -/
def waterPre (g : Grid) (stack : List (ℤ × ℤ)) : Prop :=
  ∀ r c : ℤ, 0 ≤ (g r c).water_volume ∧
    ((g r c).terrain_type = TerrainType.water →
      0 < (g r c).water_volume ∨ (r, c) ∈ stack)

/-! ## Concrete instances used by counterexamples and witnesses -/

/-- A generator stream that constantly yields 1/2. -/
def rng_half : Rng := ⟨fun _ => 1/2, 0⟩

/-- An all-land grid (elevation 50, no water). -/
def land_grid : Grid :=
  fun _ _ => { terrain_type := TerrainType.land, elevation := 50 }

/-- Water at `(0, 0)` only, land elsewhere: water is diagonal from
`(1, 1)` but not orthogonal. -/
def diag_grid : Grid :=
  fun r c =>
    if r = 0 ∧ c = 0 then
      { terrain_type := TerrainType.water, elevation := 50,
        water_volume := 100 }
    else { terrain_type := TerrainType.land, elevation := 50 }

/-- Land at `(0, 0)` only, water everywhere else: all 8 neighbours of
`(0, 0)` are impassable. -/
def walled_grid : Grid :=
  fun r c =>
    if r = 0 ∧ c = 0 then
      { terrain_type := TerrainType.land, elevation := 50 }
    else
      { terrain_type := TerrainType.water, elevation := 50,
        water_volume := 100 }

/-- A healthy adult herbivore at `(1, 1)` with thirst 80. -/
def herb_diag : Animal :=
  { id := 10, row := 1, col := 1, speed := 1, sex := Sex.M,
    color := (0, 255, 255), species := Species.Herbivore, thirst := 80,
    age := 25, is_adult := true, max_age := 80 }

/-- A predator with energy 10 and hunting success rate 0.7. -/
def pred_low_energy : Animal :=
  { id := 11, row := 0, col := 1, speed := 1, sex := Sex.M,
    color := (255, 0, 0), species := Species.Predator, hunger := 50,
    age := 25, is_adult := true, max_age := 80, energy := 10,
    hunting_success_rate := 7/10, hunger_decrease_on_feed := 80 }

/-- A living adjacent herbivore to be hunted. -/
def herb_prey : Animal :=
  { id := 12, row := 0, col := 0, speed := 1, sex := Sex.M,
    color := (0, 255, 255), species := Species.Herbivore, hunger := 50,
    age := 25, is_adult := true, max_age := 80 }

/-- A herbivore at full energy (100). -/
def herb_full : Animal :=
  { id := 13, row := 0, col := 0, speed := 1, sex := Sex.M,
    color := (0, 255, 255), species := Species.Herbivore, hunger := 50,
    age := 25, is_adult := true, max_age := 80 }

/-- A living herbivore that enters the tick with `hunger = 100`. -/
def herb_starved : Animal :=
  { id := 14, row := 0, col := 0, speed := 1, sex := Sex.M,
    color := (0, 255, 255), species := Species.Herbivore, hunger := 100,
    age := 25, is_adult := true, max_age := 80 }

/-- A living predator that enters the tick with `hunger = 100`. -/
def pred_starved : Animal :=
  { id := 15, row := 1, col := 1, speed := 1, sex := Sex.M,
    color := (255, 0, 0), species := Species.Predator, hunger := 100,
    age := 25, is_adult := true, max_age := 80,
    hunting_success_rate := 7/10, hunger_decrease_on_feed := 80 }

/-- C1 state: a 2x2 all-land world holding one starved herbivore and
one starved predator. -/
def state_c1 : EcoState :=
  { rows := 2, cols := 2, grid := land_grid,
    herbivores := [herb_starved], predators := [pred_starved] }

/-- The C6 herbivore: a healthy adult at `(0, 0)`. -/
def herb_c6 : Animal :=
  { id := 16, row := 0, col := 0, speed := 1, sex := Sex.M,
    color := (0, 255, 255), species := Species.Herbivore,
    age := 25, is_adult := true, max_age := 80 }

/-- `herb_c6` after one `handle_vital_stats` call. -/
def herb_c6v : Animal := { herb_c6 with age := 26, hunger := 10, thirst := 10 }

/-- The C6 walled-variant herbivore. -/
def herb_c6w : Animal :=
  { id := 17, row := 0, col := 0, speed := 1, sex := Sex.M,
    color := (0, 255, 255), species := Species.Herbivore,
    age := 25, is_adult := true, max_age := 80 }

/-- `herb_c6w` after one `handle_vital_stats` call. -/
def herb_c6wv : Animal :=
  { herb_c6w with age := 26, hunger := 10, thirst := 10 }

/-- C6 scenario state: a 10x10 all-land world with a single healthy
adult herbivore at `(0, 0)` and no predators. -/
def state_c6 : EcoState :=
  { rows := 10, cols := 10, grid := land_grid, herbivores := [herb_c6] }

/-- C6 walled variant: the same single herbivore but every neighbour of
`(0, 0)` is water. -/
def state_c6w : EcoState :=
  { rows := 10, cols := 10, grid := walled_grid,
    herbivores := [herb_c6w] }

/-- The valid moves of `(0, 0)` on the 10x10 all-land grid, in
`_get_valid_moves` scan order (the cell itself included). -/
def c6_moves : List (ℤ × ℤ) := [(0, 0), (0, 1), (1, 0), (1, 1)]

/-- The index a stream draw at cursor `j` turns into when choosing
among 4 items (`random.choice` / the shuffle model on length 4). -/
def draw4 (r : Rng) (j : Nat) : Nat :=
  (⌊Int.fract (r.f j) * ((4 : Nat) : ℚ)⌋).toNat % 4

/-- `herb_c6wv` after drinking (its orthogonal neighbours are water). -/
def herb_c6wd : Animal :=
  { herb_c6wv with thirst := max (herb_c6wv.thirst - 50) 0 }

/-! ## C3: hunting success rate -/

/-- C3, counterexample: for a predator of speed 1 (speeds are drawn from
`uniform(0.5, 1.5)`), `_calculate_hunting_success_rate` returns
`0.2 + (1 − 3.5) = −2.3`, which is negative and differs from the claimed
`clamp(0.2 + (speed − 3.5), 0, 1) = 0`: the code has no lower clamp. -/
theorem C3_counterexample :
    Animal.calculate_hunting_success_rate 1 = -23/10 ∧
    spec_clamp_rate 1 = 0 ∧
    Animal.calculate_hunting_success_rate 1 ≠ spec_clamp_rate 1 ∧
    Animal.calculate_hunting_success_rate 1 < 0 := by
  refine ⟨?_, ?_, ?_, ?_⟩ <;>
    norm_num [Animal.calculate_hunting_success_rate, spec_clamp_rate]

/-- C3, amended: the computed rate is `min(0.2 + (speed − 3.5), 1)` —
never above 1, but unclamped below, so the spec's
`clamp(0.2 + (speed − 3.5), 0, 1)` is exactly the rate with an
additional floor at 0. -/
theorem C3_amended_rate (s : ℚ) :
    Animal.calculate_hunting_success_rate s ≤ 1 ∧
    spec_clamp_rate s = max 0 (Animal.calculate_hunting_success_rate s) := by
  constructor
  · exact min_le_right _ _
  · unfold spec_clamp_rate Animal.calculate_hunting_success_rate
    rw [min_comm]
    norm_num

/-! ## Projection lemmas for the branching animal operations -/

theorem age_animal_age (a : Animal) : a.age_animal.age = a.age + 1 := by
  simp only [Animal.age_animal]
  split_ifs <;> rfl

theorem age_animal_max_age (a : Animal) :
    a.age_animal.max_age = a.max_age := by
  simp only [Animal.age_animal]
  split_ifs <;> rfl

theorem age_animal_hunger (a : Animal) :
    a.age_animal.hunger = a.hunger := by
  simp only [Animal.age_animal]
  split_ifs <;> rfl

theorem age_animal_thirst (a : Animal) :
    a.age_animal.thirst = a.thirst := by
  simp only [Animal.age_animal]
  split_ifs <;> rfl

theorem age_animal_energy (a : Animal) :
    a.age_animal.energy = a.energy := by
  simp only [Animal.age_animal]
  split_ifs <;> rfl

theorem age_animal_is_dead (a : Animal) :
    a.age_animal.is_dead = a.is_dead := by
  simp only [Animal.age_animal]
  split_ifs <;> rfl

theorem age_animal_cause (a : Animal) :
    a.age_animal.cause_of_death = a.cause_of_death := by
  simp only [Animal.age_animal]
  split_ifs <;> rfl

theorem age_animal_decay (a : Animal) : a.age_animal.decay = a.decay := by
  simp only [Animal.age_animal]
  split_ifs <;> rfl

theorem age_animal_fertility (a : Animal) :
    a.age_animal.fertility = a.fertility := by
  simp only [Animal.age_animal]
  split_ifs <;> rfl

theorem age_animal_is_pregnant (a : Animal) :
    a.age_animal.is_pregnant = a.is_pregnant := by
  simp only [Animal.age_animal]
  split_ifs <;> rfl

theorem age_animal_row (a : Animal) : a.age_animal.row = a.row := by
  simp only [Animal.age_animal]
  split_ifs <;> rfl

theorem age_animal_col (a : Animal) : a.age_animal.col = a.col := by
  simp only [Animal.age_animal]
  split_ifs <;> rfl

theorem age_animal_body_temperature (a : Animal) :
    a.age_animal.body_temperature = a.body_temperature := by
  simp only [Animal.age_animal]
  split_ifs <;> rfl

theorem die_fertility (a : Animal) (c : DeathCause) :
    (a.die c).fertility = a.fertility := by
  unfold Animal.die
  split_ifs <;> rfl

theorem die_is_pregnant (a : Animal) (c : DeathCause) :
    (a.die c).is_pregnant = a.is_pregnant := by
  unfold Animal.die
  split_ifs <;> rfl

theorem die_row (a : Animal) (c : DeathCause) : (a.die c).row = a.row := by
  unfold Animal.die
  split_ifs <;> rfl

theorem die_col (a : Animal) (c : DeathCause) : (a.die c).col = a.col := by
  unfold Animal.die
  split_ifs <;> rfl

theorem die_hunger (a : Animal) (c : DeathCause) :
    (a.die c).hunger = a.hunger := by
  unfold Animal.die
  split_ifs <;> rfl

theorem die_thirst (a : Animal) (c : DeathCause) :
    (a.die c).thirst = a.thirst := by
  unfold Animal.die
  split_ifs <;> rfl

theorem die_energy (a : Animal) (c : DeathCause) :
    (a.die c).energy = a.energy := by
  unfold Animal.die
  split_ifs <;> rfl

theorem die_decay (a : Animal) (c : DeathCause) :
    (a.die c).decay = a.decay := by
  unfold Animal.die
  split_ifs <;> rfl

theorem die_of_live (a : Animal) (c : DeathCause) (h : a.is_dead = false) :
    a.die c = { a with is_dead := true, cause_of_death := some c,
                       born := false } := by
  unfold Animal.die
  simp [h]

theorem regenerate_fertility (a : Animal) :
    a.regenerate_energy.fertility = a.fertility := by
  unfold Animal.regenerate_energy
  split_ifs <;> rfl

theorem regenerate_is_pregnant (a : Animal) :
    a.regenerate_energy.is_pregnant = a.is_pregnant := by
  unfold Animal.regenerate_energy
  split_ifs <;> rfl

theorem regenerate_is_dead (a : Animal) :
    a.regenerate_energy.is_dead = a.is_dead := by
  unfold Animal.regenerate_energy
  split_ifs <;> rfl

theorem regenerate_cause (a : Animal) :
    a.regenerate_energy.cause_of_death = a.cause_of_death := by
  unfold Animal.regenerate_energy
  split_ifs <;> rfl

theorem regenerate_hunger (a : Animal) :
    a.regenerate_energy.hunger = a.hunger := by
  unfold Animal.regenerate_energy
  split_ifs <;> rfl

theorem regenerate_thirst (a : Animal) :
    a.regenerate_energy.thirst = a.thirst := by
  unfold Animal.regenerate_energy
  split_ifs <;> rfl

theorem regenerate_row (a : Animal) :
    a.regenerate_energy.row = a.row := by
  unfold Animal.regenerate_energy
  split_ifs <;> rfl

theorem regenerate_col (a : Animal) :
    a.regenerate_energy.col = a.col := by
  unfold Animal.regenerate_energy
  split_ifs <;> rfl

theorem regenerate_decay (a : Animal) :
    a.regenerate_energy.decay = a.decay := by
  unfold Animal.regenerate_energy
  split_ifs <;> rfl

theorem check_death_fertility (a : Animal) :
    a.check_death_conditions.fertility = a.fertility := by
  unfold Animal.check_death_conditions
  split_ifs <;> simp [die_fertility]

theorem check_death_is_pregnant (a : Animal) :
    a.check_death_conditions.is_pregnant = a.is_pregnant := by
  unfold Animal.check_death_conditions
  split_ifs <;> simp [die_is_pregnant]

theorem check_death_row (a : Animal) :
    a.check_death_conditions.row = a.row := by
  unfold Animal.check_death_conditions
  split_ifs <;> simp [die_row]

theorem check_death_col (a : Animal) :
    a.check_death_conditions.col = a.col := by
  unfold Animal.check_death_conditions
  split_ifs <;> simp [die_col]

theorem check_death_decay (a : Animal) :
    a.check_death_conditions.decay = a.decay := by
  unfold Animal.check_death_conditions
  split_ifs <;> simp [die_decay]

theorem check_death_hunger (a : Animal) :
    a.check_death_conditions.hunger = a.hunger := by
  unfold Animal.check_death_conditions
  split_ifs <;> simp [die_hunger]

theorem check_death_thirst (a : Animal) :
    a.check_death_conditions.thirst = a.thirst := by
  unfold Animal.check_death_conditions
  split_ifs <;> simp [die_thirst]

theorem hvs_fertility (a : Animal) :
    a.handle_vital_stats.fertility = a.fertility := by
  unfold Animal.handle_vital_stats
  simp [regenerate_fertility, check_death_fertility,
    Animal.increase_thirst, Animal.increase_hunger, age_animal_fertility]

theorem hvs_is_pregnant (a : Animal) :
    a.handle_vital_stats.is_pregnant = a.is_pregnant := by
  unfold Animal.handle_vital_stats
  simp [regenerate_is_pregnant, check_death_is_pregnant,
    Animal.increase_thirst, Animal.increase_hunger, age_animal_is_pregnant]

theorem hvs_row (a : Animal) : a.handle_vital_stats.row = a.row := by
  unfold Animal.handle_vital_stats
  simp [regenerate_row, check_death_row, Animal.increase_thirst,
    Animal.increase_hunger, age_animal_row]

theorem hvs_col (a : Animal) : a.handle_vital_stats.col = a.col := by
  unfold Animal.handle_vital_stats
  simp [regenerate_col, check_death_col, Animal.increase_thirst,
    Animal.increase_hunger, age_animal_col]

theorem hvs_decay (a : Animal) : a.handle_vital_stats.decay = a.decay := by
  unfold Animal.handle_vital_stats
  simp [regenerate_decay, check_death_decay, Animal.increase_thirst,
    Animal.increase_hunger, age_animal_decay]

theorem undergo_decay_fertility (a : Animal) :
    a.undergo_decay.fertility = a.fertility := by
  unfold Animal.undergo_decay
  split_ifs <;> rfl

theorem undergo_decay_is_pregnant (a : Animal) :
    a.undergo_decay.is_pregnant = a.is_pregnant := by
  unfold Animal.undergo_decay
  split_ifs <;> rfl

theorem undergo_decay_is_dead (a : Animal) :
    a.undergo_decay.is_dead = a.is_dead := by
  unfold Animal.undergo_decay
  split_ifs <;> rfl

theorem undergo_decay_row (a : Animal) :
    a.undergo_decay.row = a.row := by
  unfold Animal.undergo_decay
  split_ifs <;> rfl

theorem undergo_decay_col (a : Animal) :
    a.undergo_decay.col = a.col := by
  unfold Animal.undergo_decay
  split_ifs <;> rfl

/-- `check_death_conditions` sets exactly the spec-ordered first cause
(for a live animal with no recorded cause). -/
theorem check_death_conditions_spec (a : Animal) (ha : a.is_dead = false)
    (hc : a.cause_of_death = none) :
    a.check_death_conditions.cause_of_death = spec_first_cause a ∧
    (a.check_death_conditions.is_dead = true ↔
      (spec_first_cause a).isSome = true) := by
  unfold Animal.check_death_conditions spec_first_cause Animal.die
  split_ifs <;> simp_all

/-! ## C5: death priority, terminality, starvation scenario -/

/-- C5: for a living animal with no recorded cause,
`_check_death_conditions` records exactly the first satisfied condition
of the spec's priority list (and kills iff one is satisfied); `die` on
an already-dead animal changes nothing; and an animal entering
`handle_vital_stats` alive with `hunger = 100` whose incremented age
stays below `max_age` dies there with cause Starvation and no other. -/
theorem C5_death_priority :
    (∀ a : Animal, a.is_dead = false → a.cause_of_death = none →
      a.check_death_conditions.cause_of_death = spec_first_cause a ∧
      (a.check_death_conditions.is_dead = true ↔
        (spec_first_cause a).isSome = true)) ∧
    (∀ (a : Animal) (c : DeathCause), a.is_dead = true → a.die c = a) ∧
    (∀ a : Animal, a.is_dead = false → a.cause_of_death = none →
      a.hunger = 100 → a.age + 1 < a.max_age →
      a.handle_vital_stats.is_dead = true ∧
      a.handle_vital_stats.cause_of_death = some DeathCause.starvation) := by
  refine ⟨check_death_conditions_spec, ?_, ?_⟩
  · intro a c ha
    unfold Animal.die
    simp [ha]
  · intro a ha hc hh hm
    unfold Animal.handle_vital_stats
    set b := Animal.increase_thirst (Animal.increase_hunger a.age_animal)
      with hb
    have hbd : b.is_dead = false := by
      simp [hb, Animal.increase_thirst, Animal.increase_hunger,
        age_animal_is_dead, ha]
    have hbc : b.cause_of_death = none := by
      simp [hb, Animal.increase_thirst, Animal.increase_hunger,
        age_animal_cause, hc]
    have hspec : spec_first_cause b = some DeathCause.starvation := by
      have h1 : b.age = a.age + 1 := by
        simp [hb, Animal.increase_thirst, Animal.increase_hunger,
          age_animal_age]
      have h2 : b.max_age = a.max_age := by
        simp [hb, Animal.increase_thirst, Animal.increase_hunger,
          age_animal_max_age]
      have h3 : b.hunger = 100 := by
        simp [hb, Animal.increase_thirst, Animal.increase_hunger,
          age_animal_hunger, hh]
      unfold spec_first_cause
      rw [if_neg (by rw [h1, h2]; omega), if_pos (by rw [h3])]
    have hmain := check_death_conditions_spec b hbd hbc
    constructor
    · rw [regenerate_is_dead, hmain.2, hspec]
      rfl
    · rw [regenerate_cause, hmain.1, hspec]

/-- C5, witness: the three parts applied at concrete animals — a living
one with `thirst = 100` (cause Dehydration is the first satisfied), a
dead one, and a living one with `hunger = 100`. -/
theorem C5_death_priority_witness :
    ((Animal.check_death_conditions
        { id := 0, row := 0, col := 0, speed := 1, sex := Sex.M,
          color := (0, 0, 0), species := Species.Herbivore, thirst := 100,
          age := 10, max_age := 50 }).cause_of_death =
      some DeathCause.dehydration) ∧
    (Animal.die
        { id := 1, row := 0, col := 0, speed := 1, sex := Sex.M,
          color := (0, 0, 0), species := Species.Herbivore,
          is_dead := true } DeathCause.oldAge =
      { id := 1, row := 0, col := 0, speed := 1, sex := Sex.M,
        color := (0, 0, 0), species := Species.Herbivore,
        is_dead := true }) ∧
    ((Animal.handle_vital_stats
        { id := 2, row := 0, col := 0, speed := 1, sex := Sex.M,
          color := (0, 0, 0), species := Species.Herbivore, hunger := 100,
          age := 10, max_age := 50 }).cause_of_death =
      some DeathCause.starvation) := by
  refine ⟨?_, ?_, ?_⟩
  · have h := (C5_death_priority.1
      { id := 0, row := 0, col := 0, speed := 1, sex := Sex.M,
        color := (0, 0, 0), species := Species.Herbivore, thirst := 100,
        age := 10, max_age := 50 } rfl rfl).1
    rw [h]
    norm_num [spec_first_cause]
  · exact C5_death_priority.2.1
      { id := 1, row := 0, col := 0, speed := 1, sex := Sex.M,
        color := (0, 0, 0), species := Species.Herbivore,
        is_dead := true } DeathCause.oldAge rfl
  · exact (C5_death_priority.2.2
      { id := 2, row := 0, col := 0, speed := 1, sex := Sex.M,
        color := (0, 0, 0), species := Species.Herbivore, hunger := 100,
        age := 10, max_age := 50 } rfl rfl rfl (by norm_num)).2

/-! ## C2: needs and energy ranges -/

theorem hvs_hunger_formula (a : Animal) :
    a.handle_vital_stats.hunger = min (a.hunger + 10) 100 := by
  unfold Animal.handle_vital_stats
  rw [regenerate_hunger, check_death_hunger]
  simp [Animal.increase_thirst, Animal.increase_hunger, age_animal_hunger]

theorem hvs_thirst_formula (a : Animal) :
    a.handle_vital_stats.thirst = min (a.thirst + 10) 100 := by
  unfold Animal.handle_vital_stats
  rw [regenerate_thirst, check_death_thirst]
  simp [Animal.increase_thirst, Animal.increase_hunger, age_animal_thirst]

/-- C2, counterexample: energy does not stay within `[0, 100]`.
`Predator.hunt` charges 20 energy with no floor: the predator with
energy 10 ends at −10.  `Animal.feed` caps energy below by 0 but not
above by 100: feeding 30 nutrition at energy 100 gives 130. -/
theorem C2_counterexample :
    (hunt pred_low_energy herb_prey [herb_prey] rng_half).1.energy =
      -10 ∧
    ¬(0 ≤ (hunt pred_low_energy herb_prey [herb_prey]
        rng_half).1.energy) ∧
    (Animal.feed herb_full 30).energy = 130 ∧
    ¬((Animal.feed herb_full 30).energy ≤ 100) := by
  have h1 : (hunt pred_low_energy herb_prey [herb_prey]
      rng_half).1.energy = -10 := by
    norm_num [hunt, Rng.next, Int.fract, rng_half, pred_low_energy,
      herb_prey, removeFirstById, Animal.die]
  have h2 : (Animal.feed herb_full 30).energy = 130 := by
    norm_num [Animal.feed, Animal.increase_colon_fill, herb_full]
  refine ⟨h1, ?_, h2, ?_⟩
  · rw [h1]; norm_num
  · rw [h2]; norm_num

/-- C2, amended: hunger and thirst do remain within `[0, 100]` under the
per-tick operations (each update is clamped), but energy is unclamped:
`hunt` subtracts 20 with no floor, `feed` adds nutrition with only a 0
floor (so it can exceed 100), and `Predator.move` decrements only under
its `energy > 0` guard, keeping energy nonnegative from integral
energies (`energy ≥ 1`). -/
theorem C2_amended_ranges :
    (∀ (a : Animal) (n : ℚ), 0 ≤ n → 0 ≤ a.hunger → a.hunger ≤ 100 →
      0 ≤ (a.feed n).hunger ∧ (a.feed n).hunger ≤ 100 ∧
        0 ≤ (a.feed n).energy) ∧
    (∀ a : Animal, 0 ≤ a.hunger → a.hunger ≤ 100 → 0 ≤ a.thirst →
      a.thirst ≤ 100 →
      0 ≤ a.handle_vital_stats.hunger ∧
        a.handle_vital_stats.hunger ≤ 100 ∧
        0 ≤ a.handle_vital_stats.thirst ∧
        a.handle_vital_stats.thirst ≤ 100) ∧
    (∀ (g : Grid) (rows cols : ℤ) (a : Animal), 0 ≤ a.thirst →
      a.thirst ≤ 100 →
      0 ≤ (handle_drinking g rows cols a).thirst ∧
        (handle_drinking g rows cols a).thirst ≤ 100) ∧
    (∀ (p prey : Animal) (herb : List Animal) (rng : Rng),
      (hunt p prey herb rng).1.energy = p.energy - 20 ∧
      (0 ≤ p.hunger → p.hunger ≤ 100 → 0 ≤ p.hunger_decrease_on_feed →
        0 ≤ (hunt p prey herb rng).1.hunger ∧
          (hunt p prey herb rng).1.hunger ≤ 100) ∧
      (0 ≤ p.thirst → p.thirst ≤ 100 →
        0 ≤ (hunt p prey herb rng).1.thirst ∧
          (hunt p prey herb rng).1.thirst ≤ 100)) ∧
    (∀ (p : Animal) (vm : List (ℤ × ℤ)) (rng : Rng), 1 ≤ p.energy →
      0 ≤ (predator_move p vm rng).1.energy) := by
  refine ⟨?_, ?_, ?_, ?_, ?_⟩
  · intro a n hn h0 h100
    unfold Animal.feed Animal.increase_colon_fill
    refine ⟨le_max_right _ _, ?_, le_max_right _ _⟩
    simp only
    exact max_le (by linarith) (by norm_num)
  · intro a h0 h100 t0 t100
    rw [hvs_hunger_formula, hvs_thirst_formula]
    refine ⟨le_min (by linarith) (by norm_num), min_le_right _ _,
      le_min (by linarith) (by norm_num), min_le_right _ _⟩
  · intro g rows cols a h0 h100
    unfold handle_drinking
    split_ifs
    · exact ⟨le_max_right _ _, max_le (by linarith) (by norm_num)⟩
    · exact ⟨h0, h100⟩
  · intro p prey herb rng
    simp only [hunt, Rng.next]
    refine ⟨?_, ?_, ?_⟩
    · split_ifs <;> rfl
    · intro h0 h100 hdf
      split_ifs
      · exact ⟨le_max_right _ _, max_le (by simp; linarith) (by norm_num)⟩
      · exact ⟨h0, h100⟩
    · intro h0 h100
      split_ifs
      · exact ⟨le_max_right _ _, max_le (by simp; linarith) (by norm_num)⟩
      · exact ⟨h0, h100⟩
  · intro p vm rng he
    unfold predator_move
    split_ifs with h
    · simp only
      linarith
    · exact le_trans (by norm_num) he

/-- C2, witness: the amended range facts at concrete inputs. -/
theorem C2_amended_ranges_witness :
    (0 ≤ (Animal.feed herb_full 30).hunger ∧
      (Animal.feed herb_full 30).hunger ≤ 100 ∧
      0 ≤ (Animal.feed herb_full 30).energy) ∧
    (0 ≤ (Animal.handle_vital_stats herb_full).hunger ∧
      (Animal.handle_vital_stats herb_full).hunger ≤ 100 ∧
      0 ≤ (Animal.handle_vital_stats herb_full).thirst ∧
      (Animal.handle_vital_stats herb_full).thirst ≤ 100) ∧
    (hunt pred_low_energy herb_prey [herb_prey] rng_half).1.energy =
      pred_low_energy.energy - 20 ∧
    (0 ≤ (predator_move pred_starved [(0, 0)] rng_half).1.energy) := by
  refine ⟨C2_amended_ranges.1 herb_full 30 (by norm_num) ?_ ?_,
    C2_amended_ranges.2.1 herb_full ?_ ?_ ?_ ?_,
    (C2_amended_ranges.2.2.2.1 pred_low_energy herb_prey [herb_prey]
      rng_half).1,
    C2_amended_ranges.2.2.2.2 pred_starved [(0, 0)] rng_half ?_⟩ <;>
    norm_num [herb_full, pred_starved]

/-! ## C4: drinking adjacency -/

/-- C4, counterexample: with water only diagonally adjacent (at `(0,0)`,
animal at `(1,1)`), the animal is 8-adjacent to water but
`handle_drinking` — which uses the 4-neighbourhood
`_is_adjacent_to_water` — leaves thirst unchanged at 80 instead of
reducing it by 50. -/
theorem C4_counterexample :
    is_adjacent_to_water8 diag_grid 3 3 1 1 = true ∧
    is_adjacent_to_water4 diag_grid 3 3 1 1 = false ∧
    herb_diag.is_dead = false ∧ herb_diag.thirst = 80 ∧
    (handle_drinking diag_grid 3 3 herb_diag).thirst = 80 := by
  refine ⟨?_, ?_, rfl, rfl, ?_⟩ <;> decide

/-- C4, amended: the drinking step reduces thirst by 50 (floored at 0)
exactly when one of the 4 orthogonal neighbours is water (the
4-neighbourhood `_is_adjacent_to_water`), not the 8-neighbourhood;
orthogonal adjacency does imply 8-adjacency. -/
theorem C4_amended_drinking (g : Grid) (rows cols : ℤ) (a : Animal)
    (ha : a.is_dead = false) :
    ((handle_drinking g rows cols a).thirst =
      if is_adjacent_to_water4 g rows cols a.row a.col then
        max (a.thirst - 50) 0
      else a.thirst) ∧
    (is_adjacent_to_water4 g rows cols a.row a.col = true →
      is_adjacent_to_water8 g rows cols a.row a.col = true) := by
  constructor
  · unfold handle_drinking
    split_ifs with h1 h2 h3 <;> simp_all
  · intro h4
    simp only [is_adjacent_to_water4, List.any_eq_true] at h4
    obtain ⟨p, hp, hcond⟩ := h4
    simp only [is_adjacent_to_water8, List.any_eq_true, offsets8]
    refine ⟨p, ?_, hcond⟩
    simp only [List.mem_cons, List.not_mem_nil] at hp ⊢
    tauto

/-- C4, witness: the amended characterization at the concrete
diagonal-water instance. -/
theorem C4_amended_drinking_witness :
    ((handle_drinking diag_grid 3 3 herb_diag).thirst =
      if is_adjacent_to_water4 diag_grid 3 3 herb_diag.row
          herb_diag.col then
        max (herb_diag.thirst - 50) 0
      else herb_diag.thirst) := by
  exact (C4_amended_drinking diag_grid 3 3 herb_diag rfl).1

/-! ## Stage lemmas for the tick pipeline -/

theorem adjust_temperature_herb (sinq : Nat → ℚ) (s : EcoState) :
    (adjust_temperature sinq s).herbivores = s.herbivores := by
  unfold adjust_temperature
  split_ifs <;> rfl

theorem adjust_temperature_pred (sinq : Nat → ℚ) (s : EcoState) :
    (adjust_temperature sinq s).predators = s.predators := by
  unfold adjust_temperature
  split_ifs <;> rfl

theorem update_season_cycle_herb (s : EcoState) :
    (update_season_cycle s).herbivores = s.herbivores := by
  simp only [update_season_cycle, apply_seasonal_effects]
  split_ifs <;> rfl

theorem update_season_cycle_pred_map (s : EcoState) (f : Animal → ℚ)
    (hf : ∀ (a : Animal) (q : ℚ),
      f { a with hunting_success_rate := q } = f a) :
    (update_season_cycle s).predators.map f = s.predators.map f := by
  simp only [update_season_cycle, apply_seasonal_effects]
  split_ifs <;> simp [List.map_map, Function.comp, hf]

theorem update_season_cycle_pred_len (s : EcoState) :
    (update_season_cycle s).predators.length = s.predators.length := by
  simp only [update_season_cycle, apply_seasonal_effects]
  split_ifs <;> simp

theorem update_environment_herb (sinq : Nat → ℚ) (s : EcoState)
    (rng : Rng) :
    (update_environment sinq s rng).1.herbivores = s.herbivores := by
  simp only [update_environment]
  rw [update_season_cycle_herb]
  simp [adjust_temperature_herb]

theorem update_environment_pred_len (sinq : Nat → ℚ) (s : EcoState)
    (rng : Rng) :
    (update_environment sinq s rng).1.predators.length =
      s.predators.length := by
  simp only [update_environment]
  rw [update_season_cycle_pred_len]
  simp [adjust_temperature_pred]

theorem update_herbivores_pred (s : EcoState) (rng : Rng) :
    (update_herbivores s rng).1.predators = s.predators := rfl

theorem update_predators_herb_grid (s : EcoState) (rng : Rng) :
    (update_predators s rng).1.grid = s.grid := rfl

theorem grow_plants_herb (s : EcoState) (rng : Rng) :
    (grow_plants s rng).1.herbivores = s.herbivores := rfl

theorem grow_plants_pred (s : EcoState) (rng : Rng) :
    (grow_plants s rng).1.predators = s.predators := rfl

theorem update_plants_herb (s : EcoState) :
    (update_plants s).herbivores = s.herbivores := rfl

theorem update_plants_pred (s : EcoState) :
    (update_plants s).predators = s.predators := rfl

theorem update_population_data_herb (s : EcoState) :
    (update_population_data s).herbivores = s.herbivores := rfl

theorem update_population_data_pred (s : EcoState) :
    (update_population_data s).predators = s.predators := rfl

theorem pred_step_kept_len (rows cols : ℤ) (g : Grid)
    (st : PredPassState) (k : Nat) :
    (pred_step rows cols g st k).kept.length ≤ st.kept.length + 1 := by
  simp only [pred_step]
  split_ifs <;> simp

theorem pred_fold_kept_len (rows cols : ℤ) (g : Grid) :
    ∀ (l : List Nat) (st : PredPassState),
      ((l.foldl (pred_step rows cols g) st).kept).length ≤
        st.kept.length + l.length := by
  intro l
  induction l with
  | nil => intro st; simp
  | cons x xs ih =>
    intro st
    calc ((xs.foldl (pred_step rows cols g)
            (pred_step rows cols g st x)).kept).length ≤
          (pred_step rows cols g st x).kept.length + xs.length := ih _
      _ ≤ st.kept.length + 1 + xs.length := by
          have := pred_step_kept_len rows cols g st x
          omega
      _ = st.kept.length + (x :: xs).length := by simp; omega

theorem update_predators_len (s : EcoState) (rng : Rng) :
    (update_predators s rng).1.predators.length ≤
      s.predators.length := by
  simp only [update_predators, List.length_map]
  have h := pred_fold_kept_len s.rows s.cols s.grid
    (List.range s.predators.length) ⟨s.predators, [], s.herbivores, rng⟩
  simpa using h

/-! ## C10: the predator roster never grows -/

/-- C10: across one whole tick the predator roster length is
non-increasing — the predator pass only filters (no reproduction, no
`add_animal` for predators), and every other stage maps or leaves the
roster. -/
theorem C10_predators_nonincreasing (sinq : Nat → ℚ) (s : EcoState)
    (rng : Rng) :
    (tick sinq s rng).1.predators.length ≤ s.predators.length := by
  simp only [tick]
  rw [update_population_data_pred]
  simp only [update_body_temp_and_nutrition, update_plants]
  simp only [List.length_map]
  rw [grow_plants_pred]
  calc (update_predators (update_herbivores
          (update_environment sinq s rng).1
          (update_environment sinq s rng).2).1
        (update_herbivores (update_environment sinq s rng).1
          (update_environment sinq s rng).2).2).1.predators.length ≤
      (update_herbivores (update_environment sinq s rng).1
        (update_environment sinq s rng).2).1.predators.length :=
        update_predators_len _ _
    _ = (update_environment sinq s rng).1.predators.length := by
        rw [update_herbivores_pred]
    _ = s.predators.length := update_environment_pred_len sinq s rng

/-! ## Fertility and pregnancy preservation through the pipeline -/

theorem feed_fertility (a : Animal) (n : ℚ) :
    (a.feed n).fertility = a.fertility := rfl

theorem feed_is_pregnant (a : Animal) (n : ℚ) :
    (a.feed n).is_pregnant = a.is_pregnant := rfl

theorem feed_row (a : Animal) (n : ℚ) : (a.feed n).row = a.row := rfl

theorem feed_col (a : Animal) (n : ℚ) : (a.feed n).col = a.col := rfl

theorem feed_herbivore_fertility (g : Grid) (a : Animal) :
    (feed_herbivore g a).1.fertility = a.fertility := by
  unfold feed_herbivore
  split_ifs <;> rfl

theorem feed_herbivore_is_pregnant (g : Grid) (a : Animal) :
    (feed_herbivore g a).1.is_pregnant = a.is_pregnant := by
  unfold feed_herbivore
  split_ifs <;> rfl

theorem feed_herbivore_row (g : Grid) (a : Animal) :
    (feed_herbivore g a).1.row = a.row := by
  unfold feed_herbivore
  split_ifs <;> rfl

theorem feed_herbivore_col (g : Grid) (a : Animal) :
    (feed_herbivore g a).1.col = a.col := by
  unfold feed_herbivore
  split_ifs <;> rfl

theorem feed_herbivore_is_dead (g : Grid) (a : Animal) :
    (feed_herbivore g a).1.is_dead = a.is_dead := by
  unfold feed_herbivore
  split_ifs <;> rfl

theorem handle_drinking_fertility (g : Grid) (rows cols : ℤ)
    (a : Animal) :
    (handle_drinking g rows cols a).fertility = a.fertility := by
  unfold handle_drinking
  split_ifs <;> rfl

theorem handle_drinking_is_pregnant (g : Grid) (rows cols : ℤ)
    (a : Animal) :
    (handle_drinking g rows cols a).is_pregnant = a.is_pregnant := by
  unfold handle_drinking
  split_ifs <;> rfl

theorem handle_drinking_row (g : Grid) (rows cols : ℤ) (a : Animal) :
    (handle_drinking g rows cols a).row = a.row := by
  unfold handle_drinking
  split_ifs <;> rfl

theorem handle_drinking_col (g : Grid) (rows cols : ℤ) (a : Animal) :
    (handle_drinking g rows cols a).col = a.col := by
  unfold handle_drinking
  split_ifs <;> rfl

theorem handle_drinking_is_dead (g : Grid) (rows cols : ℤ)
    (a : Animal) :
    (handle_drinking g rows cols a).is_dead = a.is_dead := by
  unfold handle_drinking
  split_ifs <;> rfl

theorem animal_move_fertility (ts : Tiles) (a : Animal)
    (vm : List (ℤ × ℤ)) (nearby : List Animal) (rng : Rng) :
    (animal_move ts a vm nearby rng).1.fertility = a.fertility := by
  simp only [animal_move]
  split_ifs <;> rfl

theorem animal_move_is_pregnant (ts : Tiles) (a : Animal)
    (vm : List (ℤ × ℤ)) (nearby : List Animal) (rng : Rng) :
    (animal_move ts a vm nearby rng).1.is_pregnant = a.is_pregnant := by
  simp only [animal_move]
  split_ifs <;> rfl

theorem animal_move_is_dead (ts : Tiles) (a : Animal)
    (vm : List (ℤ × ℤ)) (nearby : List Animal) (rng : Rng) :
    (animal_move ts a vm nearby rng).1.is_dead = a.is_dead := by
  simp only [animal_move]
  split_ifs <;> rfl

theorem handle_movement_fertility (rows cols : ℤ) (g : Grid)
    (allAnimals : List Animal) (ts : Tiles) (a : Animal) (rng : Rng) :
    (handle_movement rows cols g allAnimals ts a rng).1.fertility =
      a.fertility := by
  unfold handle_movement
  split_ifs <;> simp [animal_move_fertility]

theorem handle_movement_is_pregnant (rows cols : ℤ) (g : Grid)
    (allAnimals : List Animal) (ts : Tiles) (a : Animal) (rng : Rng) :
    (handle_movement rows cols g allAnimals ts a rng).1.is_pregnant =
      a.is_pregnant := by
  unfold handle_movement
  split_ifs <;> simp [animal_move_is_pregnant]

theorem handle_movement_is_dead (rows cols : ℤ) (g : Grid)
    (allAnimals : List Animal) (ts : Tiles) (a : Animal) (rng : Rng) :
    (handle_movement rows cols g allAnimals ts a rng).1.is_dead =
      a.is_dead := by
  unfold handle_movement
  split_ifs <;> simp [animal_move_is_dead]

theorem herb_reproduce_snd (a other : Animal) :
    (Animal.herb_reproduce a other).2 = none := by
  unfold Animal.herb_reproduce
  split_ifs <;> rfl

theorem handle_reproduction_snd (l : List Animal) :
    ∀ (a : Animal) (acc : List Animal),
      (handle_reproduction a l acc).2 = acc := by
  induction l with
  | nil => intro a acc; rfl
  | cons other rest ih =>
    intro a acc
    simp only [handle_reproduction, herb_reproduce_snd]
    split_ifs
    · exact ih _ _
    · exact ih _ _

theorem can_reproduce_false_of_low (a : Animal) (h : a.fertility < 8) :
    a.can_reproduce = false := by
  simp only [Animal.can_reproduce, decide_eq_false_iff_not]
  intro hc
  linarith [hc.2.2.2.2.2.2.2]

theorem herb_can_reproduce_false_of_low (a : Animal)
    (h : a.fertility < 8) : a.herb_can_reproduce = false := by
  unfold Animal.herb_can_reproduce
  rw [can_reproduce_false_of_low a h]
  rfl

theorem herb_reproduce_low (a other : Animal) (h : a.fertility < 8) :
    Animal.herb_reproduce a other = (a, none) := by
  unfold Animal.herb_reproduce
  rw [if_neg]
  intro hc
  have := herb_can_reproduce_false_of_low a h
  rw [this] at hc
  simp at hc

theorem handle_reproduction_low (l : List Animal) :
    ∀ (a : Animal) (acc : List Animal), a.fertility < 8 →
      handle_reproduction a l acc = (a, acc) := by
  induction l with
  | nil => intro a acc _; rfl
  | cons other rest ih =>
    intro a acc h
    unfold handle_reproduction
    split_ifs
    · rw [herb_reproduce_low a other h]
      exact ih a acc h
    · exact ih a acc h

theorem defecate_fst_fertility (a : Animal) (g : Grid) :
    (Animal.defecate a g).1.fertility = a.fertility := rfl

theorem urinate_fst_fertility (a : Animal) (g : Grid) :
    (Animal.urinate a g).1.fertility = a.fertility := rfl

theorem defecate_fst_is_pregnant (a : Animal) (g : Grid) :
    (Animal.defecate a g).1.is_pregnant = a.is_pregnant := rfl

theorem urinate_fst_is_pregnant (a : Animal) (g : Grid) :
    (Animal.urinate a g).1.is_pregnant = a.is_pregnant := rfl

theorem defecate_fst_row (a : Animal) (g : Grid) :
    (Animal.defecate a g).1.row = a.row := rfl

theorem urinate_fst_row (a : Animal) (g : Grid) :
    (Animal.urinate a g).1.row = a.row := rfl

theorem defecate_fst_col (a : Animal) (g : Grid) :
    (Animal.defecate a g).1.col = a.col := rfl

theorem urinate_fst_col (a : Animal) (g : Grid) :
    (Animal.urinate a g).1.col = a.col := rfl

theorem getD_set_lt (l : List α) (k : Nat) (a d : α)
    (h : k < l.length) : (l.set k a).getD k d = a := by
  simp [List.getD_eq_getElem?_getD, List.getElem?_set_self h]

theorem getD_set_ne (l : List α) (k j : Nat) (a d : α) (h : k ≠ j) :
    (l.set k a).getD j d = l.getD j d := by
  simp [List.getD_eq_getElem?_getD, List.getElem?_set_ne h]

/-- One `update_herbivores` iteration only rewrites slot `k` with an
animal of the same fertility and (for fertility below the reproduction
threshold) the same pregnancy flag; it never creates newborns and only
adds `k` to the kept indices. -/
theorem herb_step_arr (rows cols : ℤ) (preds : List Animal)
    (st : HerbPassState) (k : Nat)
    (hlow : (st.arr.getD k default).fertility < 8) :
    ∃ x : Animal,
      (herb_step rows cols preds st k).arr = st.arr.set k x ∧
      x.fertility = (st.arr.getD k default).fertility ∧
      x.is_pregnant = (st.arr.getD k default).is_pregnant ∧
      (herb_step rows cols preds st k).newborns = st.newborns ∧
      (∀ j ∈ (herb_step rows cols preds st k).kept,
        j ∈ st.kept ∨ j = k) := by
  simp only [herb_step]
  split_ifs with hd1 hd2 hl1 hl2 <;>
    refine ⟨_, rfl, ?_, ?_, ?_, ?_⟩ <;>
    simp only [urinate_fst_fertility, defecate_fst_fertility,
      urinate_fst_is_pregnant, defecate_fst_is_pregnant,
      handle_reproduction_snd, handle_reproduction_low,
      handle_movement_fertility, handle_movement_is_pregnant,
      handle_drinking_fertility, handle_drinking_is_pregnant,
      feed_herbivore_fertility, feed_herbivore_is_pregnant,
      hvs_fertility, hvs_is_pregnant, undergo_decay_fertility,
      undergo_decay_is_pregnant, hlow, List.mem_append,
      List.mem_singleton] <;>
    tauto

/-- Folding `herb_step` over index lists keeps fertilities and (below
the threshold) pregnancy flags slot-wise intact, creates no newborns,
and keeps indices in range. -/
theorem herb_fold_inv (rows cols : ℤ) (preds : List Animal)
    (arr0 : List Animal)
    (H : ∀ j : Nat, (arr0.getD j default).fertility < 8 ∧
      (arr0.getD j default).is_pregnant = false) :
    ∀ (l : List Nat) (st : HerbPassState),
      st.arr.length = arr0.length →
      (∀ j, (st.arr.getD j default).fertility =
          (arr0.getD j default).fertility ∧
        (st.arr.getD j default).is_pregnant =
          (arr0.getD j default).is_pregnant) →
      st.newborns = [] →
      (∀ j ∈ st.kept, j < arr0.length) →
      (∀ x ∈ l, x < arr0.length) →
      (l.foldl (herb_step rows cols preds) st).arr.length =
          arr0.length ∧
      (∀ j, ((l.foldl (herb_step rows cols preds) st).arr.getD j
            default).fertility = (arr0.getD j default).fertility ∧
        ((l.foldl (herb_step rows cols preds) st).arr.getD j
            default).is_pregnant = (arr0.getD j default).is_pregnant) ∧
      (l.foldl (herb_step rows cols preds) st).newborns = [] ∧
      (∀ j ∈ (l.foldl (herb_step rows cols preds) st).kept,
        j < arr0.length) := by
  intro l
  induction l with
  | nil => intro st h1 h2 h3 h4 _; exact ⟨h1, h2, h3, h4⟩
  | cons x xs ih =>
    intro st h1 h2 h3 h4 hl
    have hx : x < arr0.length := hl x (List.mem_cons_self x xs)
    have hlow : (st.arr.getD x default).fertility < 8 := by
      rw [(h2 x).1]; exact (H x).1
    obtain ⟨v, harr, hvf, hvp, hnb, hkept⟩ :=
      herb_step_arr rows cols preds st x hlow
    simp only [List.foldl_cons]
    apply ih
    · rw [harr, List.length_set, h1]
    · intro j
      by_cases hj : x = j
      · subst hj
        rw [harr, getD_set_lt _ _ _ _ (by rw [h1]; exact hx)]
        exact ⟨hvf.trans (h2 x).1, hvp.trans (h2 x).2⟩
      · rw [harr, getD_set_ne _ _ _ _ _ hj]
        exact h2 j
    · exact hnb.trans h3
    · intro j hj
      rcases hkept j hj with hj' | hj'
      · exact h4 j hj'
      · rw [hj']; exact hx
    · intro y hy
      exact hl y (List.mem_cons_of_mem x hy)

/-- The herbivore pass: every surviving herbivore keeps the fertility of
some pre-pass herbivore, and — when every pre-pass fertility is below
the reproduction threshold and nobody is pregnant — nobody becomes
pregnant (and the `new_herbivores` list stays empty). -/
theorem update_herbivores_preserves (s : EcoState) (rng : Rng)
    (H : ∀ a ∈ s.herbivores, a.fertility < 8 ∧ a.is_pregnant = false) :
    ∀ a' ∈ (update_herbivores s rng).1.herbivores,
      (∃ a ∈ s.herbivores, a'.fertility = a.fertility) ∧
      a'.fertility < 8 ∧ a'.is_pregnant = false := by
  have H' : ∀ j : Nat, (s.herbivores.getD j default).fertility < 8 ∧
      (s.herbivores.getD j default).is_pregnant = false := by
    intro j
    by_cases hj : j < s.herbivores.length
    · rw [List.getD_eq_getElem _ _ hj]
      exact H _ (List.getElem_mem hj)
    · rw [List.getD_eq_default _ _ (by omega)]
      exact ⟨by show (1 : ℚ) < 8; norm_num, rfl⟩
  have hfold := herb_fold_inv s.rows s.cols s.predators s.herbivores H'
    (List.range s.herbivores.length)
    ⟨s.herbivores, [], [], s.grid, s.animals_on_tile, rng⟩
    rfl (fun _ => ⟨rfl, rfl⟩) rfl (by simp)
    (fun x hx => List.mem_range.mp hx)
  intro a' ha'
  simp only [update_herbivores, List.mem_append] at ha'
  rcases ha' with ha' | ha'
  · obtain ⟨k, hk, hak⟩ := List.mem_map.mp ha'
    have hkn := hfold.2.2.2 k hk
    have hf := (hfold.2.1 k).1
    have hp := (hfold.2.1 k).2
    have hmem := List.getElem_mem hkn
    have hgd : s.herbivores.getD k default = s.herbivores[k] :=
      List.getD_eq_getElem _ _ hkn
    refine ⟨⟨s.herbivores[k], hmem, ?_⟩, ?_, ?_⟩
    · rw [← hak, hf, hgd]
    · rw [← hak, hf, hgd]
      exact (H _ hmem).1
    · rw [← hak, hp, hgd]
      exact (H _ hmem).2
  · rw [hfold.2.2.1] at ha'
    exact absurd ha' (List.not_mem_nil a')

theorem predator_move_fertility (a : Animal) (vm : List (ℤ × ℤ))
    (rng : Rng) : (predator_move a vm rng).1.fertility = a.fertility := by
  simp only [predator_move, Rng.choice, Rng.below, Rng.next]
  split_ifs <;> rfl

theorem predator_move_is_pregnant (a : Animal) (vm : List (ℤ × ℤ))
    (rng : Rng) :
    (predator_move a vm rng).1.is_pregnant = a.is_pregnant := by
  simp only [predator_move, Rng.choice, Rng.below, Rng.next]
  split_ifs <;> rfl

theorem hunt_fst_fertility (p prey : Animal) (herb : List Animal)
    (rng : Rng) : (hunt p prey herb rng).1.fertility = p.fertility := by
  simp only [hunt, Rng.next]
  split_ifs <;> rfl

theorem predator_feed_fst_fertility (p : Animal) (herb : List Animal)
    (rng : Rng) :
    (predator_feed p herb rng).1.fertility = p.fertility := by
  simp only [predator_feed, Rng.choice, Rng.below, Rng.next]
  split_ifs <;> simp [hunt_fst_fertility]

theorem feed_predator_fst_fertility (p : Animal) (herb : List Animal)
    (rng : Rng) :
    (feed_predator p herb rng).1.fertility = p.fertility := by
  unfold feed_predator
  split_ifs <;> simp [predator_feed_fst_fertility]

theorem handle_feeding_pred_fst_fertility (p : Animal)
    (herb : List Animal) (rng : Rng) :
    (handle_feeding_pred p herb rng).1.fertility = p.fertility := by
  unfold handle_feeding_pred
  split_ifs <;> simp [feed_predator_fst_fertility]

theorem mem_removeFirstById (l : List Animal) (i : Nat) (x : Animal) :
    x ∈ removeFirstById l i → x ∈ l := by
  induction l with
  | nil => intro h; exact absurd h (List.not_mem_nil x)
  | cons a rest ih =>
    intro h
    unfold removeFirstById at h
    split_ifs at h
    · exact List.mem_cons_of_mem a h
    · rcases List.mem_cons.mp h with h' | h'
      · rw [h']; exact List.mem_cons_self a rest
      · exact List.mem_cons_of_mem a (ih h')

/-- Every herbivore surviving a hunt is either an untouched or a
freshly-died member of the input roster. -/
theorem hunt_herb_mem (p prey : Animal) (herb : List Animal) (rng : Rng)
    (x : Animal) : x ∈ (hunt p prey herb rng).2.1 →
      ∃ h ∈ herb, x = h ∨ x = h.die DeathCause.predation := by
  simp only [hunt, Rng.next]
  split_ifs
  · intro hx
    have hx2 := mem_removeFirstById _ _ _ hx
    obtain ⟨h, hh, hhx⟩ := List.mem_map.mp hx2
    refine ⟨h, hh, ?_⟩
    by_cases hid : h.id = prey.id <;> simp [hid] at hhx <;>
      [exact Or.inr hhx.symm; exact Or.inl hhx.symm]
  · intro hx
    exact ⟨x, hx, Or.inl rfl⟩

theorem predator_feed_herb_mem (p : Animal) (herb : List Animal)
    (rng : Rng) (x : Animal) :
    x ∈ (predator_feed p herb rng).2.1 →
      ∃ h ∈ herb, x = h ∨ x = h.die DeathCause.predation := by
  simp only [predator_feed, Rng.choice, Rng.below, Rng.next]
  split_ifs <;> first
    | exact hunt_herb_mem _ _ _ _ x
    | exact fun hx => ⟨x, hx, Or.inl rfl⟩

theorem feed_predator_herb_mem (p : Animal) (herb : List Animal)
    (rng : Rng) (x : Animal) :
    x ∈ (feed_predator p herb rng).2.1 →
      ∃ h ∈ herb, x = h ∨ x = h.die DeathCause.predation := by
  unfold feed_predator
  split_ifs <;> first
    | exact predator_feed_herb_mem _ _ _ x
    | exact fun hx => ⟨x, hx, Or.inl rfl⟩

theorem handle_feeding_pred_herb_mem (p : Animal) (herb : List Animal)
    (rng : Rng) (x : Animal) :
    x ∈ (handle_feeding_pred p herb rng).2.1 →
      ∃ h ∈ herb, x = h ∨ x = h.die DeathCause.predation := by
  unfold handle_feeding_pred
  split_ifs <;> first
    | exact feed_predator_herb_mem _ _ _ x
    | exact fun hx => ⟨x, hx, Or.inl rfl⟩

/-- One `update_predators` iteration: slot `k` of the roster is replaced
fertility-preservingly, kept indices only grow by `k`, and every
surviving herbivore is an (optionally predation-died) member of the
previous herbivore list. -/
theorem pred_step_arr (rows cols : ℤ) (g : Grid) (st : PredPassState)
    (k : Nat) :
    ∃ x : Animal,
      (pred_step rows cols g st k).parr = st.parr.set k x ∧
      x.fertility = (st.parr.getD k default).fertility ∧
      (∀ j ∈ (pred_step rows cols g st k).kept, j ∈ st.kept ∨ j = k) ∧
      (∀ y ∈ (pred_step rows cols g st k).herb,
        ∃ h ∈ st.herb, y = h ∨ y = h.die DeathCause.predation) := by
  simp only [pred_step]
  split_ifs with hlive
  · refine ⟨_, rfl, by simp [hvs_fertility], ?_, ?_⟩
    · intro j hj
      exact Or.inl hj
    · intro y hy
      exact ⟨y, hy, Or.inl rfl⟩
  · refine ⟨_, rfl, ?_, ?_, ?_⟩
    · simp only [handle_feeding_pred_fst_fertility,
        handle_drinking_fertility, predator_move_fertility, hvs_fertility]
    · intro j hj
      simp only [List.mem_append, List.mem_singleton] at hj
      tauto
    · intro y hy
      exact handle_feeding_pred_herb_mem _ _ _ y hy

theorem pred_fold_inv (rows cols : ℤ) (g : Grid) (parr0 : List Animal) :
    ∀ (l : List Nat) (st : PredPassState),
      st.parr.length = parr0.length →
      (∀ j, (st.parr.getD j default).fertility =
        (parr0.getD j default).fertility) →
      (∀ j ∈ st.kept, j < parr0.length ∨ j ∈ ([] : List Nat)) →
      (∀ x ∈ l, x < parr0.length) →
      (∀ (Q : Animal → Prop), (∀ a c, Q a → Q (a.die c)) →
        (∀ y ∈ st.herb, Q y) →
        (∀ y ∈ (l.foldl (pred_step rows cols g) st).herb, Q y)) ∧
      (l.foldl (pred_step rows cols g) st).parr.length = parr0.length ∧
      (∀ j, ((l.foldl (pred_step rows cols g) st).parr.getD j
        default).fertility = (parr0.getD j default).fertility) ∧
      (∀ j ∈ (l.foldl (pred_step rows cols g) st).kept,
        j < parr0.length) := by
  intro l
  induction l with
  | nil =>
    intro st h1 h2 h3 _
    refine ⟨fun Q _ hQ0 => hQ0, h1, h2, ?_⟩
    intro j hj
    rcases h3 j hj with h | h
    · exact h
    · exact absurd h (List.not_mem_nil j)
  | cons x xs ih =>
    intro st h1 h2 h3 hl
    have hx : x < parr0.length := hl x (List.mem_cons_self x xs)
    obtain ⟨v, harr, hvf, hkept, hherb⟩ := pred_step_arr rows cols g st x
    simp only [List.foldl_cons]
    have hrec := ih (pred_step rows cols g st x)
      (by rw [harr, List.length_set, h1])
      (by
        intro j
        by_cases hj : x = j
        · subst hj
          rw [harr, getD_set_lt _ _ _ _ (by rw [h1]; exact hx)]
          exact hvf.trans (h2 x)
        · rw [harr, getD_set_ne _ _ _ _ _ hj]
          exact h2 j)
      (by
        intro j hj
        rcases hkept j hj with h | h
        · rcases h3 j h with h' | h'
          · exact Or.inl h'
          · exact absurd h' (List.not_mem_nil j)
        · rw [h]; exact Or.inl hx)
      (fun y hy => hl y (List.mem_cons_of_mem x hy))
    refine ⟨?_, hrec.2.1, hrec.2.2.1, hrec.2.2.2⟩
    intro Q hQdie hQ0
    apply hrec.1 Q hQdie
    intro y hy
    obtain ⟨h, hh, hcase⟩ := hherb y hy
    rcases hcase with h' | h'
    · rw [h']; exact hQ0 h hh
    · rw [h']; exact hQdie h _ (hQ0 h hh)

/-- The predator pass: herbivore-roster predicates stable under `die`
are preserved, and every surviving predator keeps the fertility of some
pre-pass predator. -/
theorem update_predators_preserves (s : EcoState) (rng : Rng) :
    (∀ (Q : Animal → Prop), (∀ a c, Q a → Q (a.die c)) →
      (∀ y ∈ s.herbivores, Q y) →
      (∀ y ∈ (update_predators s rng).1.herbivores, Q y)) ∧
    (∀ p' ∈ (update_predators s rng).1.predators,
      ∃ p ∈ s.predators, p'.fertility = p.fertility) := by
  have hfold := pred_fold_inv s.rows s.cols s.grid s.predators
    (List.range s.predators.length) ⟨s.predators, [], s.herbivores, rng⟩
    rfl (fun _ => rfl) (by simp) (fun x hx => List.mem_range.mp hx)
  constructor
  · intro Q hQdie hQ0
    intro y hy
    exact hfold.1 Q hQdie hQ0 y hy
  · intro p' hp'
    simp only [update_predators] at hp'
    obtain ⟨k, hk, hpk⟩ := List.mem_map.mp hp'
    have hkn := hfold.2.2.2 k hk
    have hf := hfold.2.2.1 k
    refine ⟨s.predators[k], List.getElem_mem hkn, ?_⟩
    rw [← hpk, hf, List.getD_eq_getElem _ _ hkn]

theorem update_season_cycle_pred_mem (s : EcoState) :
    ∀ p' ∈ (update_season_cycle s).predators,
      ∃ p ∈ s.predators, p'.fertility = p.fertility := by
  simp only [update_season_cycle, apply_seasonal_effects]
  split_ifs <;> intro p' hp'
  · obtain ⟨p, hp, hpe⟩ := List.mem_map.mp hp'
    exact ⟨p, hp, by rw [← hpe]⟩
  · exact ⟨p', hp', rfl⟩

theorem update_environment_pred_mem (sinq : Nat → ℚ) (s : EcoState)
    (rng : Rng) :
    ∀ p' ∈ (update_environment sinq s rng).1.predators,
      ∃ p ∈ s.predators, p'.fertility = p.fertility := by
  simp only [update_environment]
  intro p' hp'
  obtain ⟨p, hp, hpe⟩ := update_season_cycle_pred_mem _ p' hp'
  rw [adjust_temperature_pred] at hp
  exact ⟨p, hp, hpe⟩

theorem update_body_temp_herb_mem (s : EcoState) :
    ∀ a' ∈ (update_body_temp_and_nutrition s).herbivores,
      ∃ a ∈ s.herbivores,
        a'.fertility = a.fertility ∧ a'.is_pregnant = a.is_pregnant := by
  simp only [update_body_temp_and_nutrition]
  intro a' ha'
  obtain ⟨a, ha, hae⟩ := List.mem_map.mp ha'
  exact ⟨a, ha, by rw [← hae], by rw [← hae]⟩

theorem update_body_temp_pred_mem (s : EcoState) :
    ∀ p' ∈ (update_body_temp_and_nutrition s).predators,
      ∃ p ∈ s.predators, p'.fertility = p.fertility := by
  simp only [update_body_temp_and_nutrition]
  intro p' hp'
  obtain ⟨p, hp, hpe⟩ := List.mem_map.mp hp'
  exact ⟨p, hp, by rw [← hpe]⟩

theorem init_biological_fertility (a : Animal) (rng : Rng) :
    1/2 ≤ (init_biological a rng).1.fertility ∧
    (init_biological a rng).1.fertility < 3/2 := by
  simp only [init_biological, Rng.uniform, Rng.next]
  constructor <;>
    nlinarith [Int.fract_nonneg (rng.f (rng.i + 1 + 1 + 1 + 1)),
      Int.fract_lt_one (rng.f (rng.i + 1 + 1 + 1 + 1))]

theorem make_herbivore_fertility (i : Nat) (row col : ℤ) (speed : ℚ)
    (sex : Sex) (rng : Rng) :
    1/2 ≤ (make_herbivore i row col speed sex rng).1.fertility ∧
    (make_herbivore i row col speed sex rng).1.fertility < 3/2 := by
  simp only [make_herbivore, make_animal, init_basic, Rng.below,
    Rng.randint, Rng.next]
  split_ifs <;> exact init_biological_fertility _ _

theorem build_herbivores_fertility (g : Grid) (rows cols : ℤ)
    (fuel : Nat) :
    ∀ (n nid : Nat) (rng : Rng),
      ∀ a ∈ (build_herbivores g rows cols fuel n nid rng).1,
        1/2 ≤ a.fertility ∧ a.fertility < 3/2 := by
  intro n
  induction n with
  | zero =>
    intro nid rng a ha
    exact absurd ha (List.not_mem_nil a)
  | succ m ih =>
    intro nid rng a ha
    rw [build_herbivores] at ha
    rcases hloc : generate_valid_location g rows cols [] [] rng fuel
      with ⟨loc, r1⟩
    rw [hloc] at ha
    simp only at ha
    rcases hmk : make_herbivore nid loc.1 loc.2
      (r1.uniform (1/2) (3/2)).1
      (if ((r1.uniform (1/2) (3/2)).2.below 2).1 = 0 then Sex.M
        else Sex.F)
      ((r1.uniform (1/2) (3/2)).2.below 2).2 with ⟨b, r4⟩
    rw [hmk] at ha
    simp only [List.mem_cons] at ha
    rcases ha with ha | ha
    · have hb := make_herbivore_fertility nid loc.1 loc.2
        (r1.uniform (1/2) (3/2)).1
        (if ((r1.uniform (1/2) (3/2)).2.below 2).1 = 0 then Sex.M
          else Sex.F)
        ((r1.uniform (1/2) (3/2)).2.below 2).2
      rw [hmk] at hb
      rw [ha]
      exact hb
    · exact ih _ _ a ha

/-! ## C9: fertility is static, so reproduction never fires -/

/-- C9: the tick pipeline never changes any animal's fertility (it never
calls `update_fertility`): every post-tick herbivore and predator
carries the fertility of a pre-tick animal; under the real populations'
fertilities (all below 8, as produced by initialization, which draws
fertility from `uniform(0.5, 1.5)`), `can_reproduce` is false and no
herbivore ever becomes pregnant. -/
theorem C9_no_reproduction :
    (∀ (sinq : Nat → ℚ) (s : EcoState) (rng : Rng),
      (∀ a ∈ s.herbivores, a.fertility < 8 ∧ a.is_pregnant = false) →
      (∀ a' ∈ (tick sinq s rng).1.herbivores,
        (∃ a ∈ s.herbivores, a'.fertility = a.fertility) ∧
        a'.fertility < 8 ∧ a'.is_pregnant = false) ∧
      (∀ p' ∈ (tick sinq s rng).1.predators,
        ∃ p ∈ s.predators, p'.fertility = p.fertility)) ∧
    (∀ a : Animal, a.fertility < 8 → a.can_reproduce = false) ∧
    (∀ (g : Grid) (rows cols : ℤ) (fuel n nid : Nat) (rng : Rng),
      ∀ a ∈ (build_herbivores g rows cols fuel n nid rng).1,
        1/2 ≤ a.fertility ∧ a.fertility < 3/2) := by
  refine ⟨?_, can_reproduce_false_of_low,
    fun g rows cols fuel n nid rng =>
      build_herbivores_fertility g rows cols fuel n nid rng⟩
  intro sinq s rng H
  have hQ0 : ∀ y ∈ (update_herbivores (update_environment sinq s rng).1
      (update_environment sinq s rng).2).1.herbivores,
      (∃ a ∈ s.herbivores, y.fertility = a.fertility) ∧
      y.fertility < 8 ∧ y.is_pregnant = false := by
    have hH' : ∀ a ∈ (update_environment sinq s rng).1.herbivores,
        a.fertility < 8 ∧ a.is_pregnant = false := by
      rw [update_environment_herb]; exact H
    intro y hy
    have := update_herbivores_preserves _ _ hH' y hy
    rwa [update_environment_herb] at this
  constructor
  · intro a' ha'
    simp only [tick] at ha'
    rw [update_population_data_herb] at ha'
    obtain ⟨a2, ha2, hf2, hp2⟩ := update_body_temp_herb_mem _ a' ha'
    rw [update_plants_herb, grow_plants_herb] at ha2
    have hQ := (update_predators_preserves _ _).1
      (fun x => (∃ a ∈ s.herbivores, x.fertility = a.fertility) ∧
        x.fertility < 8 ∧ x.is_pregnant = false)
      (by
        intro a c hQa
        obtain ⟨⟨a0, ha0, hfa⟩, hlt, hpr⟩ := hQa
        exact ⟨⟨a0, ha0, by rw [die_fertility, hfa]⟩,
          by rw [die_fertility]; exact hlt,
          by rw [die_is_pregnant]; exact hpr⟩)
      hQ0 a2 ha2
    obtain ⟨⟨a0, ha0, hfa⟩, hlt, hpr⟩ := hQ
    exact ⟨⟨a0, ha0, by rw [hf2, hfa]⟩, by rw [hf2]; exact hlt,
      by rw [hp2]; exact hpr⟩
  · intro p' hp'
    simp only [tick] at hp'
    rw [update_population_data_pred] at hp'
    obtain ⟨p2, hp2mem, hf2⟩ := update_body_temp_pred_mem _ p' hp'
    rw [update_plants_pred, grow_plants_pred] at hp2mem
    obtain ⟨p3, hp3, hf3⟩ := (update_predators_preserves _ _).2 p2 hp2mem
    rw [update_herbivores_pred] at hp3
    obtain ⟨p4, hp4, hf4⟩ := update_environment_pred_mem sinq s rng p3 hp3
    exact ⟨p4, hp4, by rw [hf2, hf3, hf4]⟩

/-- C9, witness: the tick conclusions at the concrete single-herbivore
state (fertility 1, not pregnant) with the constant-1/2 stream. -/
theorem C9_no_reproduction_witness :
    (∀ a' ∈ (tick (fun _ => 0) state_c6 rng_half).1.herbivores,
      (∃ a ∈ state_c6.herbivores, a'.fertility = a.fertility) ∧
      a'.fertility < 8 ∧ a'.is_pregnant = false) ∧
    (∀ p' ∈ (tick (fun _ => 0) state_c6 rng_half).1.predators,
      ∃ p ∈ state_c6.predators, p'.fertility = p.fertility) := by
  exact (C9_no_reproduction.1 (fun _ => 0) state_c6 rng_half
    (by decide))

/-! ## C1: decay and roster removal -/

theorem check_death_is_dead_of_dead (a : Animal)
    (h : a.is_dead = true) :
    a.check_death_conditions.is_dead = true := by
  unfold Animal.check_death_conditions Animal.die
  split_ifs <;> simp_all

theorem hvs_is_dead_of_dead (a : Animal) (h : a.is_dead = true) :
    a.handle_vital_stats.is_dead = true := by
  unfold Animal.handle_vital_stats
  rw [regenerate_is_dead]
  apply check_death_is_dead_of_dead
  simp [Animal.increase_thirst, Animal.increase_hunger,
    age_animal_is_dead, h]

theorem undergo_decay_decay_of_dead (a : Animal)
    (h : a.is_dead = true) :
    a.undergo_decay.decay = max (a.decay - 5) 0 := by
  unfold Animal.undergo_decay
  simp [h]

theorem adjust_temperature_season_cycle (sinq : Nat → ℚ)
    (s : EcoState) :
    (adjust_temperature sinq s).season_cycle = s.season_cycle := by
  unfold adjust_temperature
  split_ifs <;> rfl

theorem adjust_temperature_season_duration (sinq : Nat → ℚ)
    (s : EcoState) :
    (adjust_temperature sinq s).season_duration = s.season_duration := by
  unfold adjust_temperature
  split_ifs <;> rfl

theorem range_one_eq : List.range 1 = [0] := by
  simp [List.range_succ]

theorem update_season_cycle_pred_of_lt (s : EcoState)
    (h : s.season_cycle + 1 < s.season_duration) :
    (update_season_cycle s).predators = s.predators := by
  simp only [update_season_cycle]
  rw [if_neg (by simp; omega)]

theorem update_environment_pred_eq (sinq : Nat → ℚ) (s : EcoState)
    (rng : Rng) (h : s.season_cycle + 1 < s.season_duration) :
    (update_environment sinq s rng).1.predators = s.predators := by
  simp only [update_environment]
  rw [update_season_cycle_pred_of_lt, adjust_temperature_pred]
  show (adjust_temperature sinq s).season_cycle + 1 <
    (adjust_temperature sinq s).season_duration
  rw [adjust_temperature_season_cycle, adjust_temperature_season_duration]
  exact h

/-- A dead-at-entry singleton herbivore roster: kept exactly while the
5-decremented decay stays positive — and the kept object is the one that
also went through `handle_vital_stats` (Python aliasing). -/
theorem update_herbivores_singleton_dead (s : EcoState) (rng : Rng)
    (h : Animal) (hs : s.herbivores = [h]) (hd : h.is_dead = true) :
    (update_herbivores s rng).1.herbivores =
      if 5 < h.decay then [h.undergo_decay.handle_vital_stats]
      else [] := by
  have hdead2 : (h.undergo_decay.handle_vital_stats).is_dead = true := by
    apply hvs_is_dead_of_dead
    rw [undergo_decay_is_dead]
    exact hd
  simp only [update_herbivores, hs, List.length_cons, List.length_nil,
    Nat.zero_add, range_one_eq, List.foldl_cons, List.foldl_nil]
  simp only [herb_step, List.getD_cons_zero, hd, if_true, true_and,
    hdead2, not_true, if_false, gt_iff_lt]
  by_cases hdec : 5 < h.decay
  · rw [if_pos (by rw [undergo_decay_decay_of_dead h hd]; omega),
      if_pos hdec]
    simp
  · rw [if_neg (by rw [undergo_decay_decay_of_dead h hd]; omega),
      if_neg hdec]
    simp

/-- A live singleton herbivore that dies in `handle_vital_stats` is
removed from the roster that same pass. -/
theorem update_herbivores_singleton_fresh_death (s : EcoState)
    (rng : Rng) (h : Animal) (hs : s.herbivores = [h])
    (hl : h.is_dead = false) (hd : h.handle_vital_stats.is_dead = true) :
    (update_herbivores s rng).1.herbivores = [] := by
  simp only [update_herbivores, hs, List.length_cons, List.length_nil,
    Nat.zero_add, range_one_eq, List.foldl_cons, List.foldl_nil]
  simp only [herb_step, List.getD_cons_zero, hl, hd]
  simp [hd]

/-- A singleton predator whose vital stats leave it dead (freshly or
not) is removed from the roster that same pass, whatever its decay. -/
theorem update_predators_singleton_death (s : EcoState) (rng : Rng)
    (p : Animal) (hs : s.predators = [p])
    (hd : p.handle_vital_stats.is_dead = true) :
    (update_predators s rng).1.predators = [] := by
  simp only [update_predators, hs, List.length_cons, List.length_nil,
    Nat.zero_add, range_one_eq, List.foldl_cons, List.foldl_nil]
  simp only [pred_step, List.getD_cons_zero, hd]
  simp [hd]

/-- C1, counterexample: an animal is removed from its roster the tick it
dies, with decay still 100 — never having decayed to 0.  In the 2x2
world holding one starved herbivore and one starved predator, both die
of starvation during `handle_vital_stats` (decay untouched at 100), and
after one tick both rosters are empty. -/
theorem C1_counterexample :
    herb_starved.is_dead = false ∧
    (Animal.handle_vital_stats herb_starved).is_dead = true ∧
    (Animal.handle_vital_stats herb_starved).decay = 100 ∧
    (Animal.handle_vital_stats pred_starved).is_dead = true ∧
    (Animal.handle_vital_stats pred_starved).decay = 100 ∧
    (tick (fun _ => 0) state_c1 rng_half).1.herbivores = [] ∧
    (tick (fun _ => 0) state_c1 rng_half).1.predators = [] := by
  have hdead : (Animal.handle_vital_stats herb_starved).is_dead =
      true := by
    norm_num [Animal.handle_vital_stats, Animal.regenerate_energy,
      Animal.check_death_conditions, Animal.increase_thirst,
      Animal.increase_hunger, Animal.age_animal, Animal.die, herb_starved]
  have hpdead : (Animal.handle_vital_stats pred_starved).is_dead =
      true := by
    norm_num [Animal.handle_vital_stats, Animal.regenerate_energy,
      Animal.check_death_conditions, Animal.increase_thirst,
      Animal.increase_hunger, Animal.age_animal, Animal.die, pred_starved]
  have hhherb : (update_herbivores
      (update_environment (fun _ => 0) state_c1 rng_half).1
      (update_environment (fun _ => 0) state_c1 rng_half).2).1.herbivores
      = [] := by
    apply update_herbivores_singleton_fresh_death _ _ herb_starved
    · rw [update_environment_herb]; rfl
    · rfl
    · exact hdead
  have hhpred : (update_herbivores
      (update_environment (fun _ => 0) state_c1 rng_half).1
      (update_environment (fun _ => 0) state_c1 rng_half).2).1.predators
      = [pred_starved] := by
    rw [update_herbivores_pred,
      update_environment_pred_eq _ _ _ (by norm_num [state_c1])]
    rfl
  have hpherb : (update_predators
      (update_herbivores
        (update_environment (fun _ => 0) state_c1 rng_half).1
        (update_environment (fun _ => 0) state_c1 rng_half).2).1
      (update_herbivores
        (update_environment (fun _ => 0) state_c1 rng_half).1
        (update_environment (fun _ => 0) state_c1 rng_half).2).2).1.herbivores
      = [] := by
    have hQ := (update_predators_preserves
      (update_herbivores
        (update_environment (fun _ => 0) state_c1 rng_half).1
        (update_environment (fun _ => 0) state_c1 rng_half).2).1
      (update_herbivores
        (update_environment (fun _ => 0) state_c1 rng_half).1
        (update_environment (fun _ => 0) state_c1 rng_half).2).2).1
      (fun _ => False) (fun a c hf => hf)
      (by rw [hhherb]; intro y hy; exact absurd hy (List.not_mem_nil y))
    exact List.eq_nil_iff_forall_not_mem.mpr fun y hy => hQ y hy
  have hppred : (update_predators
      (update_herbivores
        (update_environment (fun _ => 0) state_c1 rng_half).1
        (update_environment (fun _ => 0) state_c1 rng_half).2).1
      (update_herbivores
        (update_environment (fun _ => 0) state_c1 rng_half).1
        (update_environment (fun _ => 0) state_c1 rng_half).2).2).1.predators
      = [] := by
    exact update_predators_singleton_death _ _ pred_starved hhpred hpdead
  refine ⟨rfl, hdead, ?_, hpdead, ?_, ?_, ?_⟩
  · rw [hvs_decay]; rfl
  · rw [hvs_decay]; rfl
  · simp only [tick]
    rw [update_population_data_herb]
    simp only [update_body_temp_and_nutrition]
    rw [update_plants_herb, grow_plants_herb] at *
    simp only [update_plants, grow_plants] at *
    rw [hpherb]; simp
  · simp only [tick]
    rw [update_population_data_pred]
    simp only [update_body_temp_and_nutrition]
    rw [update_plants_pred, grow_plants_pred] at *
    simp only [update_plants, grow_plants] at *
    rw [hppred]; simp

/-- C1, amended: `decay` is indeed non-increasing once `is_dead`
(`undergo_decay` subtracts 5, floored at 0), but removal does not happen
"exactly when decay reaches 0": an animal that dies during a tick is
removed from its roster that same tick with its decay untouched; only a
herbivore already dead when the pass begins is kept — exactly while its
decremented decay is positive (and the kept object still goes through
`handle_vital_stats`); a predator is removed the tick its death is
observed, regardless of decay. -/
theorem C1_amended_decay :
    (∀ a : Animal, a.is_dead = true → 0 ≤ a.decay →
      a.undergo_decay.decay = max (a.decay - 5) 0 ∧
      a.undergo_decay.decay ≤ a.decay) ∧
    (∀ (s : EcoState) (rng : Rng) (h : Animal), s.herbivores = [h] →
      h.is_dead = true →
      (update_herbivores s rng).1.herbivores =
        if 5 < h.decay then [h.undergo_decay.handle_vital_stats]
        else []) ∧
    (∀ (s : EcoState) (rng : Rng) (h : Animal), s.herbivores = [h] →
      h.is_dead = false → h.handle_vital_stats.is_dead = true →
      (update_herbivores s rng).1.herbivores = []) ∧
    (∀ (s : EcoState) (rng : Rng) (p : Animal), s.predators = [p] →
      p.handle_vital_stats.is_dead = true →
      (update_predators s rng).1.predators = []) := by
  refine ⟨?_, update_herbivores_singleton_dead,
    update_herbivores_singleton_fresh_death,
    update_predators_singleton_death⟩
  intro a hd h0
  refine ⟨undergo_decay_decay_of_dead a hd, ?_⟩
  rw [undergo_decay_decay_of_dead a hd]
  omega

/-- C1, witness: the amended statements at concrete inputs — a dead
herbivore with decay 100 (kept, decremented), a starved live herbivore
and predator (removed the tick they die). -/
theorem C1_amended_decay_witness :
    (({ herb_starved with is_dead := true } : Animal).undergo_decay.decay
      = max (({ herb_starved with is_dead := true } : Animal).decay - 5)
        0) ∧
    ((update_herbivores
        { state_c1 with
          herbivores := [{ herb_starved with is_dead := true }] }
        rng_half).1.herbivores =
      if 5 < ({ herb_starved with is_dead := true } : Animal).decay then
        [({ herb_starved with is_dead := true } :
          Animal).undergo_decay.handle_vital_stats]
      else []) ∧
    ((update_herbivores state_c1 rng_half).1.herbivores = []) ∧
    ((update_predators state_c1 rng_half).1.predators = []) := by
  refine ⟨(C1_amended_decay.1 _ rfl (by decide)).1,
    C1_amended_decay.2.1 _ rng_half _ rfl rfl,
    C1_amended_decay.2.2.1 _ rng_half herb_starved rfl rfl ?_,
    C1_amended_decay.2.2.2 _ rng_half pred_starved rfl ?_⟩
  · norm_num [Animal.handle_vital_stats, Animal.regenerate_energy,
      Animal.check_death_conditions, Animal.increase_thirst,
      Animal.increase_hunger, Animal.age_animal, Animal.die, herb_starved]
  · norm_num [Animal.handle_vital_stats, Animal.regenerate_energy,
      Animal.check_death_conditions, Animal.increase_thirst,
      Animal.increase_hunger, Animal.age_animal, Animal.die, pred_starved]

/-! ## C6: the single-herbivore movement scenario -/

theorem precipitate_zero (rows cols : ℤ) (g : Grid) (rng : Rng) :
    precipitate rows cols 0 g rng = (g, ⟨rng.f, rng.i + 1⟩) := by
  simp only [precipitate, Rng.randint, Rng.next]
  split_ifs with h
  · exfalso
    norm_num at h
    have h1 : (0 : ℤ) ≤ ⌊Int.fract (rng.f rng.i) * (101 : ℚ)⌋ :=
      Int.floor_nonneg.mpr
        (mul_nonneg (Int.fract_nonneg _) (by norm_num))
    omega
  · rfl

theorem update_environment_defaults (s : EcoState) (rng : Rng)
    (hm : s.manual_temperature_control = false)
    (hp : s.precipitation_level = 0)
    (hd : s.season_cycle + 1 < s.season_duration) :
    update_environment (fun _ => 0) s rng =
      ({ s with ambient_temperature := 20,
                season_cycle := s.season_cycle + 1 },
       ⟨rng.f, rng.i + 1⟩) := by
  simp only [update_environment, adjust_temperature, hm, hp,
    Bool.false_eq_true, not_false_eq_true, if_true, precipitate_zero,
    handle_extreme_heat, update_season_cycle]
  rw [if_neg (by omega), if_neg (by norm_num)]
  norm_num

theorem herb_c6_is_dead : herb_c6.is_dead = false := rfl

theorem herb_c6v_is_dead : herb_c6v.is_dead = false := rfl

theorem herb_c6v_row : herb_c6v.row = 0 := rfl

theorem herb_c6v_col : herb_c6v.col = 0 := rfl

theorem hvs_herb_c6 : Animal.handle_vital_stats herb_c6 = herb_c6v := by
  norm_num [Animal.handle_vital_stats, Animal.age_animal,
    Animal.increase_hunger, Animal.increase_thirst,
    Animal.check_death_conditions, Animal.regenerate_energy, Animal.die,
    herb_c6, herb_c6v, min_def, max_def]

theorem hvs_herb_c6w : Animal.handle_vital_stats herb_c6w = herb_c6wv := by
  norm_num [Animal.handle_vital_stats, Animal.age_animal,
    Animal.increase_hunger, Animal.increase_thirst,
    Animal.check_death_conditions, Animal.regenerate_energy, Animal.die,
    herb_c6w, herb_c6wv, min_def, max_def]

theorem get_valid_moves_c6 (r : Rng) :
    get_valid_moves land_grid 10 10 0 0 r =
      (c6_moves.rotate (draw4 r r.i), ⟨r.f, r.i + 1⟩) := rfl

theorem get_valid_moves_c6w (r : Rng) :
    get_valid_moves walled_grid 10 10 0 0 r =
      ([((0 : ℤ), (0 : ℤ))], ⟨r.f, r.i + 1⟩) := by
  have h : get_valid_moves walled_grid 10 10 0 0 r =
      ([((0 : ℤ), (0 : ℤ))].rotate
        ((⌊Int.fract (r.f r.i) * ((1 : Nat) : ℚ)⌋).toNat % 1),
       ⟨r.f, r.i + 1⟩) := rfl
  rw [h, List.rotate_singleton]

theorem herb_c6v_energy : herb_c6v.energy = 100 := rfl

theorem herb_c6v_id : herb_c6v.id = 16 := rfl

theorem feed_herbivore_c6 :
    feed_herbivore land_grid herb_c6v = (herb_c6v, land_grid) := rfl

theorem handle_drinking_c6 :
    handle_drinking land_grid 10 10 herb_c6v = herb_c6v := rfl

theorem nearby_c6 : get_nearby_animals [herb_c6] herb_c6v 5 = [] := rfl

/-- `Animal.move` with an empty occupancy index and no nearby adults:
the animal relocates to the `random.choice` pick among the valid
moves. -/
theorem animal_move_empty_tiles (a : Animal) (l : List (ℤ × ℤ))
    (r : Rng) (hne : l ≠ []) (he : a.energy > 0)
    (hd : a.is_dead = false) :
    animal_move (fun _ => []) a l [] r =
      ({ a with
          row := (l.getD ((⌊Int.fract (r.f r.i) * (l.length : ℚ)⌋).toNat %
            l.length) (a.row, a.col)).1,
          col := (l.getD ((⌊Int.fract (r.f r.i) * (l.length : ℚ)⌋).toNat %
            l.length) (a.row, a.col)).2 },
       tilesAppend (tilesRemove (fun _ => []) (a.row, a.col) a.id)
         (l.getD ((⌊Int.fract (r.f r.i) * (l.length : ℚ)⌋).toNat %
           l.length) (a.row, a.col)) (a.id, a.species),
       ⟨r.f, r.i + 1⟩) := by
  simp only [animal_move]
  rw [if_pos ⟨hne, he, by simp [hd]⟩]
  simp only [is_tile_occupied_by_same_species, List.any_nil,
    Bool.false_eq_true, not_false_eq_true, decide_True, List.filter_true]
  rw [if_pos hne]
  simp only [choose_new_location, List.isEmpty_nil, Rng.choice,
    Rng.below, Rng.next]
  rw [if_neg (by simp)]

theorem handle_reproduction_nil (a : Animal) (acc : List Animal) :
    handle_reproduction a [] acc = (a, acc) := rfl

theorem handle_movement_c6 (r : Rng) :
    handle_movement 10 10 land_grid [herb_c6] (fun _ => []) herb_c6v r =
      ({ herb_c6v with
          row := ((c6_moves.rotate (draw4 r r.i)).getD (draw4 r (r.i + 1))
            ((0 : ℤ), (0 : ℤ))).1,
          col := ((c6_moves.rotate (draw4 r r.i)).getD (draw4 r (r.i + 1))
            ((0 : ℤ), (0 : ℤ))).2 },
       tilesAppend (tilesRemove (fun _ => []) ((0 : ℤ), (0 : ℤ)) 16)
         ((c6_moves.rotate (draw4 r r.i)).getD (draw4 r (r.i + 1))
           ((0 : ℤ), (0 : ℤ))) (16, Species.Herbivore),
       ⟨r.f, r.i + 2⟩) := by
  have hlen : (c6_moves.rotate (draw4 r r.i)).length = 4 := by
    rw [List.length_rotate]; rfl
  have hne : c6_moves.rotate (draw4 r r.i) ≠ [] := by
    intro h0; rw [h0] at hlen; exact absurd hlen (by norm_num)
  simp only [handle_movement, herb_c6v_is_dead, Bool.false_eq_true,
    not_false_eq_true, if_true, herb_c6v_row, herb_c6v_col,
    get_valid_moves_c6, nearby_c6]
  rw [animal_move_empty_tiles _ _ _ hne
    (by rw [herb_c6v_energy]; norm_num) herb_c6v_is_dead]
  dsimp only
  rw [hlen]
  simp only [draw4, herb_c6v_row, herb_c6v_col, herb_c6v_id]
  rfl

/-- The herbivore pass on the C6 state: the single live herbivore is
kept and relocated to the `random.choice` pick among the shuffled valid
moves of `(0, 0)` — the cell itself included. -/
theorem update_herbivores_c6_core (s : EcoState) (r : Rng)
    (hs : s.herbivores = [herb_c6]) (hrow : s.rows = 10)
    (hcol : s.cols = 10) (hg : s.grid = land_grid)
    (hpred : s.predators = []) (ht : s.animals_on_tile = fun _ => []) :
    ∃ a : Animal, (update_herbivores s r).1.herbivores = [a] ∧
      (a.row, a.col) =
        (c6_moves.rotate (draw4 r r.i)).getD (draw4 r (r.i + 1))
          ((0 : ℤ), (0 : ℤ)) := by
  simp only [update_herbivores, hs, hrow, hcol, hg, hpred, ht,
    List.length_cons, List.length_nil, Nat.zero_add, range_one_eq,
    List.foldl_cons, List.foldl_nil]
  simp only [herb_step, List.getD_cons_zero, herb_c6_is_dead,
    Bool.false_eq_true, if_false, false_and, hvs_herb_c6,
    herb_c6v_is_dead, not_false_eq_true, if_true, feed_herbivore_c6,
    handle_drinking_c6, List.append_nil, handle_movement_c6,
    List.eraseIdx_cons_zero, handle_reproduction_nil, Animal.defecate,
    Animal.urinate, List.nil_append, List.set_cons_zero, List.map_cons,
    List.map_nil, List.getD_cons_zero]
  exact ⟨_, rfl, Prod.mk.eta⟩

theorem herb_c6w_is_dead : herb_c6w.is_dead = false := rfl

theorem herb_c6wv_is_dead : herb_c6wv.is_dead = false := rfl

theorem herb_c6wd_is_dead : herb_c6wd.is_dead = false := rfl

theorem herb_c6wd_row : herb_c6wd.row = 0 := rfl

theorem herb_c6wd_col : herb_c6wd.col = 0 := rfl

theorem herb_c6wd_energy : herb_c6wd.energy = 100 := rfl

theorem herb_c6wd_id : herb_c6wd.id = 17 := rfl

theorem feed_herbivore_c6w :
    feed_herbivore walled_grid herb_c6wv = (herb_c6wv, walled_grid) := rfl

theorem handle_drinking_c6w :
    handle_drinking walled_grid 10 10 herb_c6wv = herb_c6wd := rfl

theorem nearby_c6w : get_nearby_animals [herb_c6w] herb_c6wd 5 = [] := rfl

theorem handle_movement_c6w (r : Rng) :
    handle_movement 10 10 walled_grid [herb_c6w] (fun _ => [])
      herb_c6wd r =
      ({ herb_c6wd with row := 0, col := 0 },
       tilesAppend (tilesRemove (fun _ => []) ((0 : ℤ), (0 : ℤ)) 17)
         ((0 : ℤ), (0 : ℤ)) (17, Species.Herbivore),
       ⟨r.f, r.i + 2⟩) := by
  simp only [handle_movement, herb_c6wd_is_dead, Bool.false_eq_true,
    not_false_eq_true, if_true, herb_c6wd_row, herb_c6wd_col,
    get_valid_moves_c6w, nearby_c6w]
  rw [animal_move_empty_tiles _ _ _ (by simp)
    (by rw [herb_c6wd_energy]; norm_num) herb_c6wd_is_dead]
  dsimp only
  simp only [List.length_cons, List.length_nil, Nat.zero_add,
    Nat.mod_one, List.getD_cons_zero, herb_c6wd_row, herb_c6wd_col,
    herb_c6wd_id]
  rfl

/-- The herbivore pass on the walled C6 state: the single herbivore's
only valid move is its own cell, so it stays at `(0, 0)`. -/
theorem update_herbivores_c6w_core (s : EcoState) (r : Rng)
    (hs : s.herbivores = [herb_c6w]) (hrow : s.rows = 10)
    (hcol : s.cols = 10) (hg : s.grid = walled_grid)
    (hpred : s.predators = []) (ht : s.animals_on_tile = fun _ => []) :
    ∃ a : Animal, (update_herbivores s r).1.herbivores = [a] ∧
      a.row = 0 ∧ a.col = 0 := by
  simp only [update_herbivores, hs, hrow, hcol, hg, hpred, ht,
    List.length_cons, List.length_nil, Nat.zero_add, range_one_eq,
    List.foldl_cons, List.foldl_nil]
  simp only [herb_step, List.getD_cons_zero, herb_c6w_is_dead,
    Bool.false_eq_true, if_false, false_and, hvs_herb_c6w,
    herb_c6wv_is_dead, not_false_eq_true, if_true, feed_herbivore_c6w,
    handle_drinking_c6w, List.append_nil, handle_movement_c6w,
    List.eraseIdx_cons_zero, handle_reproduction_nil, Animal.defecate,
    Animal.urinate, List.nil_append, List.set_cons_zero, List.map_cons,
    List.map_nil, List.getD_cons_zero]
  exact ⟨_, rfl, rfl, rfl⟩

theorem update_predators_herb_none (s : EcoState) (rng : Rng)
    (hp : s.predators = []) :
    (update_predators s rng).1.herbivores = s.herbivores := by
  simp only [update_predators, hp, List.length_nil, List.range_zero,
    List.foldl_nil]

/-- One tick on the C6 state, for an arbitrary stream: the surviving
herbivore sits at the `random.choice` pick (the environment consumed
the first draw; the shuffle and the choice consume the next two). -/
theorem tick_c6_pos (r : Rng) :
    ∃ a : Animal, (tick (fun _ => 0) state_c6 r).1.herbivores = [a] ∧
      (a.row, a.col) =
        (c6_moves.rotate (draw4 r (r.i + 1))).getD (draw4 r (r.i + 2))
          ((0 : ℤ), (0 : ℤ)) := by
  have henv := update_environment_defaults state_c6 r rfl rfl
    (by norm_num [state_c6])
  obtain ⟨a, ha, hpos⟩ := update_herbivores_c6_core
    (update_environment (fun _ => 0) state_c6 r).1
    (update_environment (fun _ => 0) state_c6 r).2
    (by rw [henv]; rfl) (by rw [henv]; rfl) (by rw [henv]; rfl)
    (by rw [henv]; rfl) (by rw [henv]; rfl) (by rw [henv]; rfl)
  have hpredN : (update_herbivores
      (update_environment (fun _ => 0) state_c6 r).1
      (update_environment (fun _ => 0) state_c6 r).2).1.predators
      = [] := by
    rw [update_herbivores_pred, henv]
    rfl
  have hherbP := update_predators_herb_none
    (update_herbivores (update_environment (fun _ => 0) state_c6 r).1
      (update_environment (fun _ => 0) state_c6 r).2).1
    (update_herbivores (update_environment (fun _ => 0) state_c6 r).1
      (update_environment (fun _ => 0) state_c6 r).2).2 hpredN
  rw [ha] at hherbP
  simp only [henv] at hpos
  simp only [tick]
  rw [update_population_data_herb]
  simp only [update_body_temp_and_nutrition]
  rw [update_plants_herb, grow_plants_herb, hherbP]
  simp only [List.map_cons, List.map_nil]
  exact ⟨_, rfl, hpos⟩

/-- One tick on the walled C6 state: the herbivore stays at `(0, 0)`
for every stream. -/
theorem tick_c6w_pos (r : Rng) :
    ∃ a : Animal, (tick (fun _ => 0) state_c6w r).1.herbivores = [a] ∧
      a.row = 0 ∧ a.col = 0 := by
  have henv := update_environment_defaults state_c6w r rfl rfl
    (by norm_num [state_c6w])
  obtain ⟨a, ha, hrow0, hcol0⟩ := update_herbivores_c6w_core
    (update_environment (fun _ => 0) state_c6w r).1
    (update_environment (fun _ => 0) state_c6w r).2
    (by rw [henv]; rfl) (by rw [henv]; rfl) (by rw [henv]; rfl)
    (by rw [henv]; rfl) (by rw [henv]; rfl) (by rw [henv]; rfl)
  have hpredN : (update_herbivores
      (update_environment (fun _ => 0) state_c6w r).1
      (update_environment (fun _ => 0) state_c6w r).2).1.predators
      = [] := by
    rw [update_herbivores_pred, henv]
    rfl
  have hherbP := update_predators_herb_none
    (update_herbivores (update_environment (fun _ => 0) state_c6w r).1
      (update_environment (fun _ => 0) state_c6w r).2).1
    (update_herbivores (update_environment (fun _ => 0) state_c6w r).1
      (update_environment (fun _ => 0) state_c6w r).2).2 hpredN
  rw [ha] at hherbP
  simp only [tick]
  rw [update_population_data_herb]
  simp only [update_body_temp_and_nutrition]
  rw [update_plants_herb, grow_plants_herb, hherbP]
  simp only [List.map_cons, List.map_nil]
  exact ⟨_, rfl, hrow0, hcol0⟩

theorem draw4_half (j : Nat) : draw4 rng_half j = 2 := by
  have h1 : Int.fract (rng_half.f j) = 1/2 := by
    show Int.fract ((1 : ℚ)/2) = 1/2
    rw [Int.fract]
    norm_num
  simp only [draw4, h1]
  norm_num
  rfl

/-- C6, counterexample: on the 10x10 all-land grid the herbivore at
`(0, 0)` has passable neighbours — `(0, 1)`, `(1, 0)` and `(1, 1)` are
Land — yet with the constant-1/2 stream it ends the tick back at
`(0, 0)`: `_get_valid_moves` includes the animal's own cell, and the
shuffle-then-choice draws pick exactly it.  The spec's "position differs
from `(0, 0)` whenever at least one of the 8 neighbours is passable" is
false. -/
theorem C6_counterexample :
    (state_c6.grid 0 1).terrain_type = TerrainType.land ∧
    (state_c6.grid 1 0).terrain_type = TerrainType.land ∧
    (state_c6.grid 1 1).terrain_type = TerrainType.land ∧
    state_c6.herbivores = [herb_c6] ∧ herb_c6.row = 0 ∧
    herb_c6.col = 0 ∧ herb_c6.is_dead = false ∧
    ∃ a : Animal,
      (tick (fun _ => 0) state_c6 rng_half).1.herbivores = [a] ∧
      a.row = 0 ∧ a.col = 0 := by
  refine ⟨rfl, rfl, rfl, rfl, rfl, rfl, rfl, ?_⟩
  obtain ⟨a, ha, hpos⟩ := tick_c6_pos rng_half
  rw [draw4_half, draw4_half] at hpos
  have hev : (c6_moves.rotate 2).getD 2 ((0 : ℤ), (0 : ℤ)) =
      ((0 : ℤ), (0 : ℤ)) := rfl
  rw [hev] at hpos
  exact ⟨a, ha, congrArg Prod.fst hpos, congrArg Prod.snd hpos⟩

/-- C6, amended: after one tick on the 10x10 all-land single-herbivore
state, the herbivore's position lies in the passable 3x3 block of
`(0, 0)` — the cell itself included, because `_get_valid_moves` scans
`range(-1, 2)` offsets including `(0, 0)`;  it may therefore stay at
`(0, 0)` even with every neighbour passable (see the counterexample).
When all 8 neighbours are impassable (walled variant) it always stays
at `(0, 0)`. -/
theorem C6_amended_movement :
    (∀ r : Rng, ∃ a : Animal,
      (tick (fun _ => 0) state_c6 r).1.herbivores = [a] ∧
      (a.row, a.col) ∈ c6_moves) ∧
    (∀ r : Rng, ∃ a : Animal,
      (tick (fun _ => 0) state_c6w r).1.herbivores = [a] ∧
      a.row = 0 ∧ a.col = 0) := by
  refine ⟨?_, tick_c6w_pos⟩
  intro r
  obtain ⟨a, ha, hpos⟩ := tick_c6_pos r
  refine ⟨a, ha, ?_⟩
  rw [hpos]
  have hidx : draw4 r (r.i + 2) <
      (c6_moves.rotate (draw4 r (r.i + 1))).length := by
    rw [List.length_rotate]
    simp only [draw4]
    exact Nat.mod_lt _ (by norm_num)
  rw [List.getD_eq_getElem _ _ hidx]
  exact List.mem_rotate.mp (List.getElem_mem hidx)

/-! ## C8: seeded determinism -/

/-- C8: the whole pipeline is a deterministic function of the seed
stream.  Two runs constructed from equal generator states (`r1 = r2`,
the same seed) and advanced the same number of ticks have equal living
herbivore, predator and plant counts and the same per-cell terrain
classification.  All randomness is threaded through the single `Rng`
value; `math.sin` is the fixed `sinq` shared by both runs. -/
theorem C8_seeded_determinism (sinq : Nat → ℚ) (rows cols : ℤ)
    (fuel hc pc n : Nat) (r1 r2 : Rng) (h : r1 = r2) :
    ((run_ticks sinq (eco_init rows cols fuel hc pc r1).1
        (eco_init rows cols fuel hc pc r1).2 n).1.herbivores.filter
          (fun a => ¬a.is_dead)).length =
      ((run_ticks sinq (eco_init rows cols fuel hc pc r2).1
        (eco_init rows cols fuel hc pc r2).2 n).1.herbivores.filter
          (fun a => ¬a.is_dead)).length ∧
    ((run_ticks sinq (eco_init rows cols fuel hc pc r1).1
        (eco_init rows cols fuel hc pc r1).2 n).1.predators.filter
          (fun a => ¬a.is_dead)).length =
      ((run_ticks sinq (eco_init rows cols fuel hc pc r2).1
        (eco_init rows cols fuel hc pc r2).2 n).1.predators.filter
          (fun a => ¬a.is_dead)).length ∧
    (run_ticks sinq (eco_init rows cols fuel hc pc r1).1
        (eco_init rows cols fuel hc pc r1).2 n).1.plants.length =
      (run_ticks sinq (eco_init rows cols fuel hc pc r2).1
        (eco_init rows cols fuel hc pc r2).2 n).1.plants.length ∧
    ∀ r c : ℤ,
      ((run_ticks sinq (eco_init rows cols fuel hc pc r1).1
        (eco_init rows cols fuel hc pc r1).2 n).1.grid r c).terrain_type =
      ((run_ticks sinq (eco_init rows cols fuel hc pc r2).1
        (eco_init rows cols fuel hc pc r2).2 n).1.grid r c).terrain_type := by
  subst h
  exact ⟨rfl, rfl, rfl, fun r c => rfl⟩

/-- C8, witness: the determinism conclusions at a concrete seed and
tick count (two copies of the constant-1/2 stream, one tick, a 2x2
world). -/
theorem C8_seeded_determinism_witness :
    ((run_ticks (fun _ => 0) (eco_init 2 2 0 0 0 rng_half).1
        (eco_init 2 2 0 0 0 rng_half).2 1).1.herbivores.filter
          (fun a => ¬a.is_dead)).length =
      ((run_ticks (fun _ => 0) (eco_init 2 2 0 0 0 rng_half).1
        (eco_init 2 2 0 0 0 rng_half).2 1).1.herbivores.filter
          (fun a => ¬a.is_dead)).length ∧
    ((run_ticks (fun _ => 0) (eco_init 2 2 0 0 0 rng_half).1
        (eco_init 2 2 0 0 0 rng_half).2 1).1.predators.filter
          (fun a => ¬a.is_dead)).length =
      ((run_ticks (fun _ => 0) (eco_init 2 2 0 0 0 rng_half).1
        (eco_init 2 2 0 0 0 rng_half).2 1).1.predators.filter
          (fun a => ¬a.is_dead)).length ∧
    (run_ticks (fun _ => 0) (eco_init 2 2 0 0 0 rng_half).1
        (eco_init 2 2 0 0 0 rng_half).2 1).1.plants.length =
      (run_ticks (fun _ => 0) (eco_init 2 2 0 0 0 rng_half).1
        (eco_init 2 2 0 0 0 rng_half).2 1).1.plants.length ∧
    ∀ r c : ℤ,
      ((run_ticks (fun _ => 0) (eco_init 2 2 0 0 0 rng_half).1
        (eco_init 2 2 0 0 0 rng_half).2 1).1.grid r c).terrain_type =
      ((run_ticks (fun _ => 0) (eco_init 2 2 0 0 0 rng_half).1
        (eco_init 2 2 0 0 0 rng_half).2 1).1.grid r c).terrain_type :=
  C8_seeded_determinism (fun _ => 0) 2 2 0 0 0 1 rng_half rng_half rfl

/-! ## C7: the water-volume invariant -/

theorem waterInv_setCell (g : Grid) (r c : ℤ) (t : Terrain)
    (h : waterInv g) (h0 : 0 ≤ t.water_volume)
    (h1 : t.terrain_type = TerrainType.water → 0 < t.water_volume) :
    waterInv (setCell g r c t) := by
  intro r' c'
  by_cases hrc : r' = r ∧ c' = c
  · simp only [setCell, if_pos hrc]
    exact ⟨h0, h1⟩
  · simp only [setCell, if_neg hrc]
    exact h r' c'

theorem waterInv_addVolume (g : Grid) (r c : ℤ) (q : ℚ)
    (h : waterInv g) (hq : 0 ≤ q) : waterInv (addVolume g r c q) := by
  unfold addVolume
  refine waterInv_setCell g r c _ h ?_ ?_
  · show 0 ≤ (g r c).water_volume + q
    have := (h r c).1
    linarith
  · intro hw
    show 0 < (g r c).water_volume + q
    have := (h r c).2 hw
    linarith

theorem waterInv_foldl {σ β : Type} (v : σ → Grid) (f : σ → β → σ)
    (hf : ∀ s b, waterInv (v s) → waterInv (v (f s b))) :
    ∀ (l : List β) (s : σ), waterInv (v s) →
      waterInv (v (l.foldl f s)) := by
  intro l
  induction l with
  | nil => intro s h; exact h
  | cons x xs ih => intro s h; exact ih (f s x) (hf s x h)

theorem get_neighbors_length_le (rows cols r c : ℤ) :
    (get_neighbors rows cols r c).length ≤ 9 := by
  unfold get_neighbors
  calc ((offsets9.map fun p => (r + p.1, c + p.2)).filter
        (fun p => inb rows cols p.1 p.2)).length
      ≤ (offsets9.map fun p => (r + p.1, c + p.2)).length :=
        List.length_filter_le _ _
    _ = 9 := by simp [offsets9]

/-- `_calculate_smoothed_terrain` demands more than 10 water samples
among at most 9 neighbours, so smoothing never changes a cell. -/
theorem smooth_pass_id (rows cols : ℤ) (g : Grid) :
    smooth_pass rows cols g = g := by
  funext r c
  have h9 : ((get_neighbors rows cols r c).filter
      (fun q => (g q.1 q.2).terrain_type = TerrainType.water)).length ≤
        9 :=
    le_trans (List.length_filter_le _ _)
      (get_neighbors_length_le rows cols r c)
  by_cases hb : inb rows cols r c
  · simp only [smooth_pass, calculate_smoothed_terrain, if_pos hb]
    rw [if_neg (by omega)]
  · simp only [smooth_pass, if_neg hb]

theorem waterInv_generate_cells (rows cols : ℤ) (g : Grid) (rng : Rng)
    (h : waterInv g) : waterInv (generate_cells rows cols g rng).1 := by
  unfold generate_cells
  apply waterInv_foldl (fun st : Grid × Rng => st.1) _ ?_ _ _ h
  intro st p hst
  dsimp only
  rcases h1 : st.2.uniform 0 100 with ⟨e, r1⟩
  rcases h2 : choose_terrain_type e r1 with ⟨tt, r2⟩
  dsimp only
  refine waterInv_setCell _ _ _ _ hst ?_ ?_
  · show 0 ≤ if tt = TerrainType.water then (100 : ℚ) else 0
    split_ifs <;> norm_num
  · intro hw
    show 0 < if tt = TerrainType.water then (100 : ℚ) else 0
    rw [if_pos hw]
    norm_num

theorem waterInv_convert_to_water (g : Grid) (tiles : List (ℤ × ℤ))
    (h : waterInv g) : waterInv (convert_to_water g tiles) := by
  unfold convert_to_water
  apply waterInv_foldl (fun g : Grid => g) _ ?_ _ _ h
  intro g' p hg'
  refine waterInv_setCell _ _ _ _ hg' ?_ ?_
  · show (0 : ℚ) ≤ 100
    norm_num
  · intro _
    show (0 : ℚ) < 100
    norm_num

theorem waterInv_expand_water_bodies (rows cols : ℤ) :
    ∀ (n : Nat) (g : Grid), waterInv g →
      waterInv (expand_water_bodies rows cols n g) := by
  intro n
  induction n with
  | zero => exact fun g h => h
  | succ m ih =>
    intro g h
    exact ih _ (waterInv_convert_to_water _ _ h)

theorem waterInv_refine_water_bodies (rows cols : ℤ) (g : Grid)
    (rng : Rng) (h : waterInv g) :
    waterInv (refine_water_bodies rows cols g rng).1 := by
  unfold refine_water_bodies
  apply waterInv_foldl (fun st : Grid × Rng => st.1) _ ?_ _ _ h
  intro st p hst
  dsimp only
  split_ifs with hc hx
  · refine waterInv_setCell _ _ _ _ hst (le_refl 0) ?_
    intro hw
    exact nomatch hw
  · refine waterInv_setCell _ _ _ _ hst (le_refl 0) ?_
    intro hw
    exact nomatch hw
  · exact hst

theorem waterInv_generate_shorelines (rows cols : ℤ) (g : Grid)
    (h : waterInv g) : waterInv (generate_shorelines rows cols g) := by
  unfold generate_shorelines
  apply waterInv_foldl (fun g : Grid => g) _ ?_ _ _ h
  intro g' p hg'
  dsimp only
  split_ifs with hc
  · refine waterInv_setCell _ _ _ _ hg' (le_refl 0) ?_
    intro hw
    exact nomatch hw
  · exact hg'

theorem waterInv_smooth_terrain (rows cols : ℤ) (g : Grid) (rng : Rng)
    (h : waterInv g) : waterInv (smooth_terrain rows cols g rng).1 := by
  unfold smooth_terrain
  dsimp only
  rw [smooth_pass_id, smooth_pass_id, smooth_pass_id]
  exact waterInv_generate_shorelines _ _ _
    (waterInv_refine_water_bodies _ _ _ _ h)

theorem waterInv_generate_terrain (rows cols : ℤ) (g : Grid) (rng : Rng)
    (h : waterInv g) : waterInv (generate_terrain rows cols g rng).1 := by
  unfold generate_terrain
  rcases h1 : generate_cells rows cols g rng with ⟨g1, rng1⟩
  dsimp only
  have h2 := waterInv_generate_cells rows cols g rng h
  rw [h1] at h2
  exact waterInv_expand_water_bodies rows cols 3 g1 h2

theorem waterInv_handle_extreme_heat (rows cols : ℤ) (temp : ℚ)
    (g : Grid) (h : waterInv g) :
    waterInv (handle_extreme_heat rows cols temp g) := by
  unfold handle_extreme_heat
  split_ifs
  · apply waterInv_foldl (fun g : Grid => g) _ ?_ _ _ h
    intro g' p hg'
    dsimp only
    split_ifs with hc
    · refine waterInv_setCell _ _ _ _ hg' (le_refl 0) ?_
      intro hw
      exact nomatch hw
    · exact hg'
  · exact h

theorem addVolume_same (g : Grid) (r c : ℤ) (q : ℚ) :
    addVolume g r c q r c =
      { g r c with water_volume := (g r c).water_volume + q } := by
  unfold addVolume
  exact setCell_same _ _ _ _

theorem addVolume_other (g : Grid) (r c : ℤ) (q : ℚ) (r' c' : ℤ)
    (h : ¬(r' = r ∧ c' = c)) : addVolume g r c q r' c' = g r' c' := by
  unfold addVolume
  exact setCell_other _ _ _ _ _ _ h

theorem waterPre_convertIfDry (rows cols : ℤ) (st : Grid × List (ℤ × ℤ))
    (nr nc : ℤ) (rest : List (ℤ × ℤ))
    (h : waterPre st.1 (st.2 ++ rest)) :
    waterPre (convertIfDry rows cols st nr nc).1
      ((convertIfDry rows cols st nr nc).2 ++ rest) := by
  unfold convertIfDry
  split_ifs with hc
  · dsimp only
    intro r c
    by_cases hrc : r = nr ∧ c = nc
    · constructor
      · rw [setCell]
        rw [if_pos hrc]
      · intro _
        right
        obtain ⟨e1, e2⟩ := hrc
        subst e1
        subst e2
        simp
    · rw [setCell, if_neg hrc]
      refine ⟨(h r c).1, ?_⟩
      intro hw
      rcases (h r c).2 hw with hpos | hm
      · exact Or.inl hpos
      · right
        simp only [List.mem_append] at hm ⊢
        tauto
  · exact h

theorem waterPre_flood_neighbors (rows cols : ℤ) (g : Grid) (r c : ℤ)
    (rest : List (ℤ × ℤ)) (h : waterPre g rest) :
    waterPre (flood_neighbors rows cols g r c).1
      ((flood_neighbors rows cols g r c).2 ++ rest) := by
  unfold flood_neighbors
  apply waterPre_convertIfDry
  apply waterPre_convertIfDry
  apply waterPre_convertIfDry
  apply waterPre_convertIfDry
  simpa using h

/-- The flood fill restores the invariant when it returns: every cell
it converts to water is pushed, and every popped cell receives
`water_amount / 4 > 0`. -/
theorem waterInv_flood_fill (rows cols : ℤ) (amt : ℚ) (hamt : 0 < amt) :
    ∀ (g : Grid) (stack : List (ℤ × ℤ)), waterPre g stack →
      waterInv (flood_fill rows cols amt g stack) := by
  suffices H : ∀ (n : Nat) (g : Grid) (stack : List (ℤ × ℤ)),
      stack.length + 2 * dryCount rows cols g ≤ n → waterPre g stack →
      waterInv (flood_fill rows cols amt g stack) by
    intro g stack hpre
    exact H _ g stack (le_refl _) hpre
  intro n
  induction n with
  | zero =>
    intro g stack hle hpre
    have hnil : stack = [] :=
      List.eq_nil_of_length_eq_zero (by omega)
    subst hnil
    rw [flood_fill]
    intro r c
    refine ⟨(hpre r c).1, ?_⟩
    intro hw
    exact ((hpre r c).2 hw).resolve_right (by simp)
  | succ m ih =>
    intro g stack hle hpre
    match stack with
    | [] =>
      rw [flood_fill]
      intro r c
      refine ⟨(hpre r c).1, ?_⟩
      intro hw
      exact ((hpre r c).2 hw).resolve_right (by simp)
    | (r, c) :: rest =>
      rw [flood_fill]
      have h1 : waterPre (addVolume g r c (amt / 4)) rest := by
        intro r' c'
        by_cases hrc : r' = r ∧ c' = c
        · obtain ⟨e1, e2⟩ := hrc
          subst e1
          subst e2
          rw [addVolume_same]
          constructor
          · show 0 ≤ (g r' c').water_volume + amt / 4
            have := (hpre r' c').1
            linarith
          · intro _
            left
            show 0 < (g r' c').water_volume + amt / 4
            have := (hpre r' c').1
            linarith
        · rw [addVolume_other _ _ _ _ _ _ hrc]
          refine ⟨(hpre r' c').1, ?_⟩
          intro hw
          rcases (hpre r' c').2 hw with hpos | hm
          · exact Or.inl hpos
          · rcases List.mem_cons.mp hm with he | hr
            · exfalso
              apply hrc
              have := Prod.mk.injEq r' c' r c ▸ he
              exact ⟨congrArg Prod.fst he, congrArg Prod.snd he⟩
            · exact Or.inr hr
      have h2 := waterPre_flood_neighbors rows cols
        (addVolume g r c (amt / 4)) r c rest h1
      apply ih
      · have hc := dryCount_flood_neighbors rows cols
          (addVolume g r c (amt / 4)) r c
        have ha := dryCount_addVolume rows cols g r c (amt / 4)
        simp only [List.length_append, List.length_reverse,
          List.length_cons] at hle ⊢
        omega
      · intro r' c'
        refine ⟨(h2 r' c').1, ?_⟩
        intro hw
        rcases (h2 r' c').2 hw with hpos | hm
        · exact Or.inl hpos
        · right
          simp only [List.mem_append, List.mem_reverse] at hm ⊢
          tauto

theorem waterInv_reclass_land (G : Grid) (row col : ℤ)
    (hG : waterInv G) :
    waterInv (if (G row col).water_volume < 10 then
      setCell G row col
        { terrain_type := TerrainType.land,
          elevation := (G row col).elevation }
      else G) := by
  split_ifs
  · exact waterInv_setCell _ _ _ _ hG (le_refl 0) (fun hw => nomatch hw)
  · exact hG

theorem waterInv_final_step (G : Grid) (nr nc : ℤ) (hG : waterInv G) :
    waterInv (if (G nr nc).water_volume > 10 ∧
        (G nr nc).terrain_type ≠ TerrainType.water then
      setCell G nr nc
        { terrain_type := TerrainType.water,
          elevation := (G nr nc).elevation,
          water_volume := (G nr nc).water_volume }
      else G) := by
  split_ifs with hF
  · refine waterInv_setCell _ _ _ _ hG ?_ ?_
    · show 0 ≤ (G nr nc).water_volume
      exact (hG nr nc).1
    · intro _
      show 0 < (G nr nc).water_volume
      have := hF.1
      linarith
  · exact hG

theorem waterInv_adjust_tile_transfer (g : Grid) (row col nr nc : ℤ)
    (h : waterInv g) :
    waterInv (adjust_tile_transfer g row col nr nc) := by
  simp only [adjust_tile_transfer]
  by_cases hlt : (g nr nc).elevation < (g row col).elevation
  swap
  · rw [if_neg hlt]
    exact h
  rw [if_pos hlt]
  have hne : ¬(row = nr ∧ col = nc) := by
    rintro ⟨e1, e2⟩
    rw [e1, e2] at hlt
    exact lt_irrefl _ hlt
  have hv0 : 0 ≤ (g row col).water_volume := (h row col).1
  have hwm0 : 0 ≤ min ((g row col).water_volume * (1/20))
      ((g row col).water_volume) := le_min (by linarith) hv0
  have hwmle : min ((g row col).water_volume * (1/20))
      ((g row col).water_volume) ≤ (g row col).water_volume :=
    min_le_right _ _
  have hInv2 : waterInv (addVolume
      (addVolume g nr nc (min ((g row col).water_volume * (1/20))
        ((g row col).water_volume))) row col
      (-(min ((g row col).water_volume * (1/20))
        ((g row col).water_volume)))) := by
    have hInv1 := waterInv_addVolume g nr nc _ h hwm0
    intro r' c'
    by_cases hrc : r' = row ∧ c' = col
    · obtain ⟨e1, e2⟩ := hrc
      subst e1
      subst e2
      rw [addVolume_same, addVolume_other _ _ _ _ _ _ hne]
      constructor
      · show 0 ≤ (g r' c').water_volume +
          -(min ((g r' c').water_volume * (1/20)) ((g r' c').water_volume))
        linarith
      · intro hw
        show 0 < (g r' c').water_volume +
          -(min ((g r' c').water_volume * (1/20)) ((g r' c').water_volume))
        have hpos : 0 < (g r' c').water_volume := (h r' c').2 hw
        have hm1 : min ((g r' c').water_volume * (1/20))
            ((g r' c').water_volume) ≤ (g r' c').water_volume * (1/20) :=
          min_le_left _ _
        linarith
    · rw [addVolume_other _ _ _ _ _ _ hrc]
      exact hInv1 r' c'
  exact waterInv_final_step _ nr nc (waterInv_reclass_land _ row col hInv2)

theorem waterInv_adjust_water_volume (rows cols : ℤ) (g : Grid)
    (h : waterInv g) : waterInv (adjust_water_volume rows cols g) := by
  unfold adjust_water_volume
  apply waterInv_foldl (fun g : Grid => g) _ ?_ _ _ h
  intro g' p hg'
  dsimp only
  split_ifs with hw
  · apply waterInv_foldl (fun g : Grid => g) _ ?_ _ _ hg'
    intro g'' q hg''
    exact waterInv_adjust_tile_transfer _ _ _ _ _ hg''
  · exact hg'

theorem waterInv_precipitate (rows cols level : ℤ) (g : Grid)
    (rng : Rng) (h : waterInv g) :
    waterInv (precipitate rows cols level g rng).1 := by
  unfold precipitate
  simp only [Rng.randint, Rng.next]
  split_ifs with hv
  · dsimp only
    apply waterInv_adjust_water_volume
    apply waterInv_foldl (fun g : Grid => g) _ ?_ _ _ h
    intro g' p hg'
    dsimp only
    split_ifs with hw
    · apply waterInv_flood_fill rows cols 200 (by norm_num)
      intro r c
      exact ⟨(hg' r c).1, fun hww => Or.inl ((hg' r c).2 hww)⟩
    · exact hg'
  · exact h

theorem update_season_cycle_grid (s : EcoState) :
    (update_season_cycle s).grid = s.grid := by
  simp only [update_season_cycle, apply_seasonal_effects]
  split_ifs <;> rfl

theorem waterInv_update_environment (sinq : Nat → ℚ) (s : EcoState)
    (rng : Rng) (h : waterInv s.grid) :
    waterInv (update_environment sinq s rng).1.grid := by
  unfold update_environment adjust_temperature
  split_ifs with hm
  · dsimp only
    rw [update_season_cycle_grid]
    exact waterInv_handle_extreme_heat _ _ _ _
      (waterInv_precipitate _ _ _ _ _ h)
  · dsimp only
    rw [update_season_cycle_grid]
    exact waterInv_handle_extreme_heat _ _ _ _
      (waterInv_precipitate _ _ _ _ _ h)

theorem waterInv_feed_herbivore (g : Grid) (a : Animal)
    (h : waterInv g) : waterInv (feed_herbivore g a).2 := by
  unfold feed_herbivore
  split_ifs with hc
  · exact waterInv_setCell _ _ _ _ h (le_refl 0) (fun hw => nomatch hw)
  · exact h

theorem waterInv_defecate (a : Animal) (g : Grid) (h : waterInv g) :
    waterInv (Animal.defecate a g).2 := by
  unfold Animal.defecate
  refine waterInv_setCell _ _ _ _ h ?_ ?_
  · exact (h a.row a.col).1
  · exact (h a.row a.col).2

theorem waterInv_urinate (a : Animal) (g : Grid) (h : waterInv g) :
    waterInv (Animal.urinate a g).2 := by
  unfold Animal.urinate
  refine waterInv_setCell _ _ _ _ h ?_ ?_
  · exact (h a.row a.col).1
  · exact (h a.row a.col).2

set_option maxHeartbeats 1600000 in
theorem waterInv_herb_step (rows cols : ℤ) (preds : List Animal)
    (st : HerbPassState) (k : Nat) (h : waterInv st.grid) :
    waterInv (herb_step rows cols preds st k).grid := by
  simp only [herb_step]
  split_ifs <;>
    first
      | exact waterInv_urinate _ _ (waterInv_defecate _ _
          (waterInv_feed_herbivore _ _ h))
      | exact h

theorem waterInv_update_herbivores (s : EcoState) (rng : Rng)
    (h : waterInv s.grid) :
    waterInv (update_herbivores s rng).1.grid := by
  unfold update_herbivores
  dsimp only
  exact waterInv_foldl (fun st : HerbPassState => st.grid) _
    (fun st k hst => waterInv_herb_step _ _ _ _ _ hst) _ _ h

theorem waterInv_grow_plants (s : EcoState) (rng : Rng)
    (h : waterInv s.grid) : waterInv (grow_plants s rng).1.grid := by
  unfold grow_plants
  dsimp only
  apply waterInv_foldl (fun st : Grid × List Plant × Rng => st.1) _ ?_
    _ _ h
  intro st p hst
  simp only [Rng.next]
  split_ifs with h1 h2
  · refine waterInv_setCell _ _ _ _ hst (le_refl 0) ?_
    intro hw
    exact nomatch hw
  · exact hst
  · exact hst

theorem waterInv_tick (sinq : Nat → ℚ) (s : EcoState) (rng : Rng)
    (h : waterInv s.grid) : waterInv (tick sinq s rng).1.grid := by
  show waterInv (grow_plants
    (update_predators
      (update_herbivores (update_environment sinq s rng).1
        (update_environment sinq s rng).2).1
      (update_herbivores (update_environment sinq s rng).1
        (update_environment sinq s rng).2).2).1
    (update_predators
      (update_herbivores (update_environment sinq s rng).1
        (update_environment sinq s rng).2).1
      (update_herbivores (update_environment sinq s rng).1
        (update_environment sinq s rng).2).2).2).1.grid
  apply waterInv_grow_plants
  show waterInv (update_herbivores (update_environment sinq s rng).1
    (update_environment sinq s rng).2).1.grid
  apply waterInv_update_herbivores
  exact waterInv_update_environment sinq s rng h

theorem waterInv_run_ticks (sinq : Nat → ℚ) :
    ∀ (n : Nat) (s : EcoState) (rng : Rng), waterInv s.grid →
      waterInv (run_ticks sinq s rng n).1.grid := by
  intro n
  induction n with
  | zero => intro s rng h; exact h
  | succ m ih =>
    intro s rng h
    rw [run_ticks]
    exact ih _ _ (waterInv_tick sinq s rng h)

theorem waterInv_eco_init (rows cols : ℤ) (fuel hc pc : Nat)
    (rng : Rng) :
    waterInv (eco_init rows cols fuel hc pc rng).1.grid := by
  unfold eco_init
  dsimp only
  rcases h1 : generate_terrain rows cols
    (fun _ _ => { terrain_type := TerrainType.land, elevation := 0 })
    rng with ⟨g1, rng1⟩
  rcases h2 : smooth_terrain rows cols g1 rng1 with ⟨g2, rng2⟩
  dsimp only
  have hb : waterInv
      (fun _ _ => { terrain_type := TerrainType.land, elevation := 0 } :
        Grid) := by
    intro r c
    exact ⟨le_refl 0, fun hw => nomatch hw⟩
  have hg1 := waterInv_generate_terrain rows cols _ rng hb
  rw [h1] at hg1
  have hg2 := waterInv_smooth_terrain rows cols g1 rng1 hg1
  rw [h2] at hg2
  exact hg2

/-- C7: the water invariant — nonnegative `water_volume` everywhere and
strictly positive volume on every Water cell — holds at every reachable
state: it holds after construction (`eco_init`), is preserved by every
tick and hence by any run.  The smoothing pass is pointwise the
identity (`_calculate_smoothed_terrain` demands more than 10 water
samples among at most 9 neighbours), and the precipitation flood fill
re-establishes the invariant on return: converted cells are pushed and
every popped cell receives `water_amount / 4 > 0`. -/
theorem C7_water_invariant :
    (∀ (rows cols : ℤ) (fuel hc pc : Nat) (rng : Rng),
      waterInv (eco_init rows cols fuel hc pc rng).1.grid) ∧
    (∀ (sinq : Nat → ℚ) (s : EcoState) (rng : Rng),
      waterInv s.grid → waterInv (tick sinq s rng).1.grid) ∧
    (∀ (sinq : Nat → ℚ) (s : EcoState) (rng : Rng) (n : Nat),
      waterInv s.grid → waterInv (run_ticks sinq s rng n).1.grid) ∧
    (∀ (rows cols : ℤ) (g : Grid), smooth_pass rows cols g = g) ∧
    (∀ (rows cols : ℤ) (amt : ℚ) (g : Grid) (stack : List (ℤ × ℤ)),
      0 < amt → waterPre g stack →
        waterInv (flood_fill rows cols amt g stack)) :=
  ⟨waterInv_eco_init, waterInv_tick,
   fun sinq s rng n h => waterInv_run_ticks sinq n s rng h,
   smooth_pass_id,
   fun rows cols amt g stack hamt hpre =>
     waterInv_flood_fill rows cols amt hamt g stack hpre⟩

/-- C7, witness: the invariant conclusions at concrete inputs — one
tick and a two-tick run from the all-land 10x10 state, and a flood fill
with amount 200 from a singleton stack on the all-land grid, with every
hypothesis discharged concretely. -/
theorem C7_water_invariant_witness :
    waterInv (tick (fun _ => 0) state_c6 rng_half).1.grid ∧
    waterInv (run_ticks (fun _ => 0) state_c6 rng_half 2).1.grid ∧
    waterInv (flood_fill 2 2 200 land_grid [(0, 0)]) := by
  have hg : waterInv state_c6.grid := by
    intro r c
    exact ⟨le_refl 0, fun hw => nomatch hw⟩
  refine ⟨C7_water_invariant.2.1 (fun _ => 0) state_c6 rng_half hg,
    C7_water_invariant.2.2.1 (fun _ => 0) state_c6 rng_half 2 hg,
    C7_water_invariant.2.2.2.2 2 2 200 land_grid [(0, 0)]
      (by norm_num) ?_⟩
  intro r c
  exact ⟨le_refl 0, fun hw => nomatch hw⟩

end Ecosim
